import Mathlib

/-!
# MAX77804K MUIC extcon driver: cable-attachment classifier and interrupt coalescing

A shallow embedding of `drivers/extcon/extcon-max77804k.c`.

* `u8` values are natural numbers; every store into a `u8` variable is written
  with an explicit `% 256`.
* The device record `struct max77804k_muic_info` is a Lean structure.  Its
  kernel-object members are represented by what the driver can observe of
  them: `mutex` by "is held", `irq_work` and `wq_detcable` by their pending
  bit, `edev` by the sequence of states published with
  `extcon_set_state_sync`, `dev` by the sequence of `dev_err` / `dev_info`
  lines.
* The bit-field constants of `linux/mfd/max77804k-private.h` are not part of
  the translated sources; they are the fields of `max77804k_private` and
  `max77804k_private_regs`, and every general theorem holds for all values of
  them.
* Calls into the kernel (register transport, allocation, interrupt and extcon
  registration) are represented by their outcomes, which are arguments of the
  embedded functions; `max77804k_muic_set_debounce_time` and
  `max77804k_muic_probe` also record the register accesses they make.
-/

namespace Max77804k

/-! ## Enumerations -/

/-- The driver's memory of what is plugged in (`enum max77804k_cable_type_muic`). -/
inductive max77804k_cable_type_muic
  | CABLE_TYPE_NONE_MUIC
  | CABLE_TYPE_USB_MUIC
  | CABLE_TYPE_OTG_MUIC
  | CABLE_TYPE_TA_MUIC
  | CABLE_TYPE_DESKDOCK_MUIC
  | CABLE_TYPE_CARDOCK_MUIC
  | CABLE_TYPE_JIG_UART_OFF_MUIC
  | CABLE_TYPE_JIG_UART_OFF_VB_MUIC
  | CABLE_TYPE_JIG_UART_ON_MUIC
  | CABLE_TYPE_JIG_USB_OFF_MUIC
  | CABLE_TYPE_JIG_USB_ON_MUIC
  | CABLE_TYPE_MHL_MUIC
  | CABLE_TYPE_MHL_VB_MUIC
  | CABLE_TYPE_SMARTDOCK_MUIC
  | CABLE_TYPE_SMARTDOCK_TA_MUIC
  | CABLE_TYPE_SMARTDOCK_USB_MUIC
  | CABLE_TYPE_AUDIODOCK_MUIC
  | CABLE_TYPE_INCOMPATIBLE_MUIC
  | CABLE_TYPE_CDP_MUIC
  | CABLE_TYPE_UNKNOWN_MUIC
  deriving DecidableEq, Repr

open max77804k_cable_type_muic

/-- The extcon cable identifiers the two detection passes publish. -/
inductive extcon_id
  | EXTCON_USB
  | EXTCON_USB_HOST
  deriving DecidableEq, Repr

open extcon_id

/-- Return values of an interrupt handler (`irqreturn_t`). -/
inductive irqreturn_t
  | IRQ_NONE
  | IRQ_HANDLED
  | IRQ_WAKE_THREAD
  deriving DecidableEq, Repr

open irqreturn_t

/-! ### MUIC accessory cable type (`enum max77804k_muic_accessory_type`) -/

def MAX77804K_MUIC_ADC_GND : Nat := 0x00
def MAX77804K_MUIC_ADC_MHL_OR_SENDEND : Nat := 0x01
def MAX77804K_MUIC_ADC_BUTTON_S1 : Nat := 0x02
def MAX77804K_MUIC_ADC_BUTTON_S2 : Nat := 0x03
def MAX77804K_MUIC_ADC_BUTTON_S3 : Nat := 0x04
def MAX77804K_MUIC_ADC_BUTTON_S4 : Nat := 0x05
def MAX77804K_MUIC_ADC_BUTTON_S5 : Nat := 0x06
def MAX77804K_MUIC_ADC_BUTTON_S6 : Nat := 0x07
def MAX77804K_MUIC_ADC_BUTTON_S7 : Nat := 0x08
def MAX77804K_MUIC_ADC_BUTTON_S8 : Nat := 0x09
def MAX77804K_MUIC_ADC_BUTTON_S9 : Nat := 0x0a
def MAX77804K_MUIC_ADC_BUTTON_S10 : Nat := 0x0b
def MAX77804K_MUIC_ADC_BUTTON_S11 : Nat := 0x0c
def MAX77804K_MUIC_ADC_BUTTON_S12 : Nat := 0x0d
def MAX77804K_MUIC_ADC_VZW_USB_DOCK : Nat := 0x0e
def MAX77804K_MUIC_ADC_VZW_INCOMPATIBLE : Nat := 0x0f
def MAX77804K_MUIC_ADC_SMARTDOCK : Nat := 0x10
def MAX77804K_MUIC_ADC_HMT : Nat := 0x11
def MAX77804K_MUIC_ADC_AUDIODOCK : Nat := 0x12
def MAX77804K_MUIC_ADC_LANHUB : Nat := 0x13
def MAX77804K_MUIC_ADC_CHARGING_CABLE : Nat := 0x14
def MAX77804K_MUIC_ADC_MPOS : Nat := 0x15
def MAX77804K_MUIC_ADC_UART : Nat := 0x16
def MAX77804K_MUIC_ADC_CEA936ATYPE1_CHG : Nat := 0x17
def MAX77804K_MUIC_ADC_JIG_USB_OFF : Nat := 0x18
def MAX77804K_MUIC_ADC_JIG_USB_ON : Nat := 0x19
def MAX77804K_MUIC_ADC_DESKDOCK : Nat := 0x1a
def MAX77804K_MUIC_ADC_CEA936ATYPE2_CHG : Nat := 0x1b
def MAX77804K_MUIC_ADC_JIG_UART_OFF : Nat := 0x1c
def MAX77804K_MUIC_ADC_JIG_UART_ON : Nat := 0x1d
def MAX77804K_MUIC_ADC_PHONE_POWERED : Nat := 0x1e
def MAX77804K_MUIC_ADC_OPEN : Nat := 0x1f

/-! ### MUIC charger cable type -/

def MAX77804K_MUIC_CHGTYP_NO_VOLTAGE : Nat := 0x00
def MAX77804K_MUIC_CHGTYP_USB : Nat := 0x01
def MAX77804K_MUIC_CHGTYP_DOWNSTREAM_PORT : Nat := 0x02
def MAX77804K_MUIC_CHGTYP_DEDICATED_CHGR : Nat := 0x03
def MAX77804K_MUIC_CHGTYP_500MA : Nat := 0x04
def MAX77804K_MUIC_CHGTYP_1A : Nat := 0x05
def MAX77804K_MUIC_IRQ_INT1_ADC_TYPE : Int := 0
def MAX77804K_MUIC_IRQ_INT1_ADCLOW_TYPE : Int := 1
def MAX77804K_MUIC_IRQ_INT1_ADCERR_TYPE : Int := 2
def MAX77804K_MUIC_IRQ_INT1_ADC1K_TYPE : Int := 3
def MAX77804K_MUIC_IRQ_INT2_CHGTYP_TYPE : Int := 4
def MAX77804K_MUIC_IRQ_INT2_CHGDETREUN_TYPE : Int := 5
def MAX77804K_MUIC_IRQ_INT2_DCDTMR_TYPE : Int := 6
def MAX77804K_MUIC_IRQ_INT2_DXOVP_TYPE : Int := 7
def MAX77804K_MUIC_IRQ_INT2_VBVOLT_TYPE : Int := 8
def MAX77804K_MUIC_IRQ_INT2_VIDRM_TYPE : Int := 9
def MAX77804K_MUIC_IRQ_INT3_EOC_TYPE : Int := 10
def MAX77804K_MUIC_IRQ_INT3_CGMBC_TYPE : Int := 11
def MAX77804K_MUIC_IRQ_INT3_OVP_TYPE : Int := 12
def MAX77804K_MUIC_IRQ_INT3_MBCCHGERR_TYPE : Int := 13
def MAX77804K_MUIC_IRQ_INT3_CHGENABLED_TYPE : Int := 14
def MAX77804K_MUIC_IRQ_INT3_BATDET_TYPE : Int := 15
def MAX77804K_MUIC_IRQ_NUM : Int := 16

/-! ## Data model -/

/-- The bit-field constants of STATUS1 and STATUS2 that the classifier uses.
They are declared in `linux/mfd/max77804k-private.h`, which is not among the
translated sources, so they are parameters of the embedding. -/
structure max77804k_private where
  MAX77804K_MUIC_STATUS1_ADC_MASK : Nat
  MAX77804K_MUIC_STATUS1_ADC_SHIFT : Nat
  MAX77804K_MUIC_STATUS1_ADCERR_MASK : Nat
  MAX77804K_MUIC_STATUS1_ADCERR_SHIFT : Nat
  MAX77804K_MUIC_STATUS2_CHGTYP_MASK : Nat
  MAX77804K_MUIC_STATUS2_CHGTYP_SHIFT : Nat
  MAX77804K_MUIC_STATUS2_DXOVP_MASK : Nat
  MAX77804K_MUIC_STATUS2_DXOVP_SHIFT : Nat
  deriving DecidableEq, Repr

/-- The cached status block `u8 status[MAX77804K_MUIC_STATUS_NUM]`, one field
per index of `enum max77804k_muic_status`. -/
structure muic_status where
  MAX77804K_MUIC_STATUS1 : Nat
  MAX77804K_MUIC_STATUS2 : Nat
  MAX77804K_MUIC_STATUS3 : Nat
  deriving DecidableEq, Repr

/-- The device record `struct max77804k_muic_info`. -/
structure max77804k_muic_info where
  /-- Lines written with `dev_err` / `dev_info` on `info->dev`, oldest first. -/
  dev : List String
  /-- States published on `info->edev` with `extcon_set_state_sync`, oldest first. -/
  edev : List (extcon_id × Bool)
  /-- Whether `info->mutex` is held. -/
  mutex : Bool
  /-- Pending bit of the work item `info->irq_work`. -/
  irq_work : Bool
  /-- Pending bit of the delayed work item `info->wq_detcable`. -/
  wq_detcable : Bool
  status : muic_status
  irq_adc : Bool
  irq_chg : Bool
  cable_type : max77804k_cable_type_muic
  adc : Nat
  chgtyp : Nat
  vbvolt : Nat
  deriving DecidableEq, Repr

/-! ## The classifier -/

/-- The local `adc` of the classifier: STATUS1 masked by the ADC field, stored
in a `u8`, then shifted right in place. -/
def decoded_adc (h : max77804k_private) (info : max77804k_muic_info) : Nat :=
  (((info.status.MAX77804K_MUIC_STATUS1 &&& h.MAX77804K_MUIC_STATUS1_ADC_MASK) % 256)
    >>> h.MAX77804K_MUIC_STATUS1_ADC_SHIFT) % 256

/-- The local `adcerr` of the classifier. -/
def decoded_adcerr (h : max77804k_private) (info : max77804k_muic_info) : Nat :=
  (((info.status.MAX77804K_MUIC_STATUS1 &&& h.MAX77804K_MUIC_STATUS1_ADCERR_MASK) % 256)
    >>> h.MAX77804K_MUIC_STATUS1_ADCERR_SHIFT) % 256

/-- The local `chgtyp` of the classifier. -/
def decoded_chgtyp (h : max77804k_private) (info : max77804k_muic_info) : Nat :=
  (((info.status.MAX77804K_MUIC_STATUS2 &&& h.MAX77804K_MUIC_STATUS2_CHGTYP_MASK) % 256)
    >>> h.MAX77804K_MUIC_STATUS2_CHGTYP_SHIFT) % 256

/-- The local `dxovp` of the classifier. -/
def decoded_dxovp (h : max77804k_private) (info : max77804k_muic_info) : Nat :=
  (((info.status.MAX77804K_MUIC_STATUS2 &&& h.MAX77804K_MUIC_STATUS2_DXOVP_MASK) % 256)
    >>> h.MAX77804K_MUIC_STATUS2_DXOVP_SHIFT) % 256

/-- The function `max77804k_muic_is_cable_attached`: uses the cached status
registers to decide whether a cable is attached. -/
def max77804k_muic_is_cable_attached (h : max77804k_private)
    (info : max77804k_muic_info) : Bool :=
  let attached := true
  let adc := decoded_adc h info
  let adcerr := decoded_adcerr h info
  let chgtyp := decoded_chgtyp h info
  let dxovp := decoded_dxovp h info
  if adc = MAX77804K_MUIC_ADC_GND then
    attached
  else if MAX77804K_MUIC_ADC_CEA936ATYPE1_CHG ≤ adc ∧ adc ≤ MAX77804K_MUIC_ADC_JIG_UART_ON then
    if info.cable_type ≠ CABLE_TYPE_NONE_MUIC
        ∧ chgtyp = MAX77804K_MUIC_CHGTYP_NO_VOLTAGE
        ∧ info.chgtyp ≠ chgtyp then
      false
    else
      attached
  else if adc = MAX77804K_MUIC_ADC_OPEN then
    if adcerr = 0 then
      if chgtyp = MAX77804K_MUIC_CHGTYP_NO_VOLTAGE then
        if dxovp ≠ 0 then
          attached
        else
          false
      else if chgtyp = MAX77804K_MUIC_CHGTYP_USB ∨
          chgtyp = MAX77804K_MUIC_CHGTYP_DOWNSTREAM_PORT ∨
          chgtyp = MAX77804K_MUIC_CHGTYP_DEDICATED_CHGR ∨
          chgtyp = MAX77804K_MUIC_CHGTYP_500MA ∨
          chgtyp = MAX77804K_MUIC_CHGTYP_1A then
        match info.cable_type with
        | CABLE_TYPE_OTG_MUIC => false
        | CABLE_TYPE_CARDOCK_MUIC => false
        | CABLE_TYPE_SMARTDOCK_MUIC => false
        | CABLE_TYPE_SMARTDOCK_TA_MUIC => false
        | CABLE_TYPE_SMARTDOCK_USB_MUIC => false
        | CABLE_TYPE_AUDIODOCK_MUIC => false
        | _ => attached
      else
        attached
    else
      attached
  else
    attached

/-- Modelled from the spec: the bit-field constants of
`linux/mfd/max77804k-private.h` are missing from the translated sources.  The
specification gives STATUS1 a 5-bit ADC code and an ADC-error flag, and STATUS2
a 3-bit charger type and a D+/D- overvoltage flag; this layout, used for the
concrete evaluations, puts the ADC code in bits 4..0 and the ADC-error flag in
bit 6 of STATUS1, the charger type in bits 2..0 and the overvoltage flag in
bit 5 of STATUS2. -/
def sample_private : max77804k_private where
  MAX77804K_MUIC_STATUS1_ADC_MASK := 0x1f
  MAX77804K_MUIC_STATUS1_ADC_SHIFT := 0
  MAX77804K_MUIC_STATUS1_ADCERR_MASK := 0x40
  MAX77804K_MUIC_STATUS1_ADCERR_SHIFT := 6
  MAX77804K_MUIC_STATUS2_CHGTYP_MASK := 0x07
  MAX77804K_MUIC_STATUS2_CHGTYP_SHIFT := 0
  MAX77804K_MUIC_STATUS2_DXOVP_MASK := 0x20
  MAX77804K_MUIC_STATUS2_DXOVP_SHIFT := 5

/-- The record `max77804k_muic_probe` starts from: zeroed by `devm_kzalloc`,
then `cable_type = CABLE_TYPE_UNKNOWN_MUIC`. -/
def probe_info : max77804k_muic_info where
  dev := []
  edev := []
  mutex := false
  irq_work := false
  wq_detcable := false
  status := ⟨0, 0, 0⟩
  irq_adc := false
  irq_chg := false
  cable_type := CABLE_TYPE_UNKNOWN_MUIC
  adc := 0
  chgtyp := 0
  vbvolt := 0

/-- The probe-time record with the given STATUS1 and STATUS2 bytes cached and
the given stored cable type. -/
def snapshot_info (s1 s2 : Nat) (c : max77804k_cable_type_muic) : max77804k_muic_info :=
  { probe_info with status := ⟨s1, s2, 0⟩, cable_type := c }

/-! ## Interrupt demultiplexing and the triggered detection pass -/

/-- One row of the interrupt table (`struct max77804k_muic_irq`). -/
structure max77804k_muic_irq where
  irq : Nat
  name : String
  virq : Nat
  deriving DecidableEq, Repr

/-- The table `max77804k_muic_irq_types[]`.  The `irq` and `name` columns are
the static initialiser; the `virq` column is zero until `max77804k_muic_probe`
stores the resolved identifier of each row, so it is given by `virq`, a
function of the row index. -/
def max77804k_muic_irq_types (virq : Nat → Nat) : List max77804k_muic_irq :=
  [ { irq := 0, name := "MUIC-ADC", virq := virq 0 },
    { irq := 1, name := "MUIC-ADCLOW", virq := virq 1 },
    { irq := 2, name := "MUIC-ADCERR", virq := virq 2 },
    { irq := 3, name := "MUIC-ADC1K", virq := virq 3 },
    { irq := 4, name := "MUIC-CHGTYP", virq := virq 4 },
    { irq := 5, name := "MUIC-CHGDETREUN", virq := virq 5 },
    { irq := 6, name := "MUIC-DCDTMR", virq := virq 6 },
    { irq := 7, name := "MUIC-DXOVP", virq := virq 7 },
    { irq := 8, name := "MUIC-VBVOLT", virq := virq 8 },
    { irq := 9, name := "MUIC-VIDRM", virq := virq 9 },
    { irq := 10, name := "MUIC-EOC", virq := virq 10 },
    { irq := 11, name := "MUIC-CGMBC", virq := virq 11 },
    { irq := 12, name := "MUIC-OVP", virq := virq 12 },
    { irq := 13, name := "MUIC-MBCCHGERR", virq := virq 13 },
    { irq := 14, name := "MUIC-CHGENABLED", virq := virq 14 },
    { irq := 15, name := "MUIC-BATDET", virq := virq 15 } ]

/-- Conversion of an `int` to `unsigned int` (32 bits), as in the comparison
`irq == max77804k_muic_irq_types[i].virq`. -/
def uint_of_int (i : Int) : Nat := (i % 2 ^ 32).toNat

/-- Conversion of an `unsigned int` to `int` (32 bits), as in the assignment
`irq_type = max77804k_muic_irq_types[i].irq`. -/
def int_of_uint (u : Nat) : Int :=
  if u % 2 ^ 32 < 2 ^ 31 then ((u % 2 ^ 32 : Nat) : Int) else ((u % 2 ^ 32 : Nat) : Int) - 2 ^ 32

/-- The `for` loop of `max77804k_muic_irq_handler`: `irq_type` starts at `-1`
and every row whose `virq` equals `irq` overwrites it with the row's `irq`. -/
def resolve_irq_type (tbl : List max77804k_muic_irq) (irq : Int) : Int :=
  tbl.foldl (fun irq_type e => if uint_of_int irq = e.virq then int_of_uint e.irq else irq_type) (-1)

/-- The call `schedule_work(&work)` on the pending bit of a work item: the bit
is set when it is clear and left alone when it is set. -/
def schedule_work (work : Bool) : Bool :=
  if work then work else true

/-- Rendering of an `int` argument of a `%d` conversion. -/
def fmt_d (i : Int) : String := toString i

/-- The function `max77804k_muic_irq_handler`, given the current contents
`tbl` of `max77804k_muic_irq_types[]`. -/
def max77804k_muic_irq_handler (tbl : List max77804k_muic_irq) (irq : Int)
    (info : max77804k_muic_info) : irqreturn_t × max77804k_muic_info :=
  let irq_type := resolve_irq_type tbl irq
  let info :=
    if irq_type = MAX77804K_MUIC_IRQ_INT1_ADC_TYPE ∨
        irq_type = MAX77804K_MUIC_IRQ_INT1_ADCLOW_TYPE ∨
        irq_type = MAX77804K_MUIC_IRQ_INT1_ADCERR_TYPE ∨
        irq_type = MAX77804K_MUIC_IRQ_INT1_ADC1K_TYPE then
      { info with irq_adc := true }
    else if irq_type = MAX77804K_MUIC_IRQ_INT2_CHGTYP_TYPE ∨
        irq_type = MAX77804K_MUIC_IRQ_INT2_CHGDETREUN_TYPE ∨
        irq_type = MAX77804K_MUIC_IRQ_INT2_DCDTMR_TYPE ∨
        irq_type = MAX77804K_MUIC_IRQ_INT2_DXOVP_TYPE ∨
        irq_type = MAX77804K_MUIC_IRQ_INT2_VBVOLT_TYPE ∨
        irq_type = MAX77804K_MUIC_IRQ_INT2_VIDRM_TYPE then
      { info with irq_chg := true }
    else if irq_type = MAX77804K_MUIC_IRQ_INT3_EOC_TYPE ∨
        irq_type = MAX77804K_MUIC_IRQ_INT3_CGMBC_TYPE ∨
        irq_type = MAX77804K_MUIC_IRQ_INT3_OVP_TYPE ∨
        irq_type = MAX77804K_MUIC_IRQ_INT3_MBCCHGERR_TYPE ∨
        irq_type = MAX77804K_MUIC_IRQ_INT3_CHGENABLED_TYPE ∨
        irq_type = MAX77804K_MUIC_IRQ_INT3_BATDET_TYPE then
      info
    else
      { info with dev := info.dev ++ ["Cannot recognize IRQ(" ++ fmt_d irq_type ++ ")\n"] }
  let info := { info with irq_work := schedule_work info.irq_work }
  (IRQ_HANDLED, info)

/-- What one call `regmap_bulk_read(regmap_muic, MAX77804K_MUIC_REG_STATUS1,
info->status, MAX77804K_MUIC_STATUS_NUM)` does: its return value and the bytes
it leaves in the buffer `info->status`. -/
structure bulk_read where
  ret : Int
  val : muic_status
  deriving DecidableEq, Repr

/-- The bytes of a bulk read as stored in the `u8` array `info->status`. -/
def store_status (rd : bulk_read) : muic_status :=
  ⟨rd.val.MAX77804K_MUIC_STATUS1 % 256, rd.val.MAX77804K_MUIC_STATUS2 % 256,
    rd.val.MAX77804K_MUIC_STATUS3 % 256⟩

/-- The call `extcon_set_state_sync(info->edev, id, state)`: one publication. -/
def extcon_set_state_sync (info : max77804k_muic_info) (id : extcon_id) (state : Bool) :
    max77804k_muic_info :=
  { info with edev := info.edev ++ [(id, state)] }

/-- The function `max77804k_muic_irq_work`: the interrupt-triggered detection
pass, run with the lock `info->mutex` free; `rd` is the outcome of its status
read. -/
def max77804k_muic_irq_work (h : max77804k_private) (rd : bulk_read)
    (info : max77804k_muic_info) : max77804k_muic_info :=
  let info := { info with mutex := true }
  let ret := rd.ret
  let info := { info with status := store_status rd }
  if ret ≠ 0 then
    let info := { info with dev := info.dev ++ ["Cannot read STATUS registers\n"] }
    { info with mutex := false }
  else
    let attached := max77804k_muic_is_cable_attached h info
    let info := extcon_set_state_sync info EXTCON_USB attached
    let info := extcon_set_state_sync info EXTCON_USB_HOST false
    let info :=
      if info.irq_adc then
        { info with
            dev := info.dev ++ ["irq_work: ADC IRQ, attached = " ++ fmt_d (if attached then 1 else 0) ++ "\n"],
            irq_adc := false }
      else info
    let info :=
      if info.irq_chg then
        { info with
            dev := info.dev ++ ["irq_work: CHG IRQ, attached = " ++ fmt_d (if attached then 1 else 0) ++ "\n"],
            irq_chg := false }
      else info
    { info with mutex := false }

/-- The workqueue running the queued item `info->irq_work`: the pending bit is
cleared, then the work function is called. -/
def process_irq_work (h : max77804k_private) (rd : bulk_read)
    (info : max77804k_muic_info) : max77804k_muic_info :=
  max77804k_muic_irq_work h rd { info with irq_work := false }

/-- Firing the interrupts `irqs` one after the other, oldest first, with no
detection pass in between. -/
def fire_irqs (tbl : List max77804k_muic_irq) (irqs : List Int)
    (info : max77804k_muic_info) : max77804k_muic_info :=
  irqs.foldl (fun s irq => (max77804k_muic_irq_handler tbl irq s).2) info

/-- A successful status read returning STATUS1 = 0x1f, STATUS2 = 0x00,
STATUS3 = 0x00 (with `sample_private`: ADC code OPEN, charger type NO_VOLTAGE,
both flag bits clear). -/
def sample_read_open : bulk_read := ⟨0, ⟨0x1f, 0x00, 0x00⟩⟩

/-- A status read that fails with `-EIO` and leaves zeroes in the buffer. -/
def sample_read_failed : bulk_read := ⟨-5, ⟨0, 0, 0⟩⟩

/-! ## The deferred initial detection pass -/

/-- The function `max77804k_muic_detect_cable_wq`: the deferred initial
detection pass, run with the lock `info->mutex` free; `rd` is the outcome of
its status read. -/
def max77804k_muic_detect_cable_wq (h : max77804k_private) (rd : bulk_read)
    (info : max77804k_muic_info) : max77804k_muic_info :=
  let info := { info with mutex := true }
  let ret := rd.ret
  let info := { info with status := store_status rd }
  if ret ≠ 0 then
    let info := { info with dev := info.dev ++ ["Cannot read STATUS registers\n"] }
    { info with mutex := false }
  else
    let attached := max77804k_muic_is_cable_attached h info
    let info :=
      { info with
          dev := info.dev ++
            ["Initial cable detection: attached = " ++ fmt_d (if attached then 1 else 0) ++ "\n"] }
    let info := extcon_set_state_sync info EXTCON_USB attached
    let info := extcon_set_state_sync info EXTCON_USB_HOST false
    { info with mutex := false }

/-- The workqueue running the delayed item `info->wq_detcable` once its delay
has elapsed: the pending bit is cleared, then the work function is called. -/
def process_wq_detcable (h : max77804k_private) (rd : bulk_read)
    (info : max77804k_muic_info) : max77804k_muic_info :=
  max77804k_muic_detect_cable_wq h rd { info with wq_detcable := false }

/-! ## The debounce configurator -/

/-! ### `enum max77804k_muic_adc_debounce_time` -/

def MAX77804K_DEBOUNCE_TIME_5MS : Nat := 0
def MAX77804K_DEBOUNCE_TIME_10MS : Nat := 1
def MAX77804K_DEBOUNCE_TIME_25MS : Nat := 2
def MAX77804K_DEBOUNCE_TIME_38_62MS : Nat := 3

/-- The errno values the driver returns itself. -/
def ENOMEM : Int := 12

/-- See `ENOMEM`. -/
def EINVAL : Int := 22

/-- The register addresses and control bit-field constants the driver uses.
They are declared in `linux/mfd/max77804k-private.h`, which is not among the
translated sources, so they are parameters of the embedding. -/
structure max77804k_private_regs where
  MAX77804K_PMIC_REG_PMIC_ID1 : Nat
  MAX77804K_MUIC_REG_ID : Nat
  MAX77804K_MUIC_REG_INT1 : Nat
  MAX77804K_MUIC_REG_STATUS1 : Nat
  MAX77804K_MUIC_REG_CDETCTRL1 : Nat
  MAX77804K_MUIC_REG_CTRL3 : Nat
  MAX77804K_MUIC_REG_CTRL4 : Nat
  MAX77804K_MUIC_CTRL3_ADCDBSET_MASK : Nat
  MAX77804K_MUIC_CTRL3_ADCDBSET_SHIFT : Nat
  MAX77804K_MUIC_CTRL4_ADCDBSET_MASK : Nat
  MAX77804K_MUIC_CTRL4_ADCDBSET_SHIFT : Nat
  MAX77804K_MUIC_CTRL4_ADCMODE_MASK : Nat
  deriving DecidableEq, Repr

/-- The two register maps of the parent device: `max77804k->regmap` (PMIC) and
`max77804k->regmap_muic`. -/
inductive regmap_id
  | regmap
  | regmap_muic
  deriving DecidableEq, Repr

/-- One call into the register transport, with its arguments (`unsigned int`
arguments are reduced modulo 2^32). -/
inductive regmap_access
  | regmap_read (map : regmap_id) (reg : Nat)
  | regmap_bulk_read (map : regmap_id) (reg : Nat) (count : Nat)
  | regmap_update_bits (map : regmap_id) (reg : Nat) (mask : Nat) (val : Nat)
  deriving DecidableEq, Repr

/-- What one call of `regmap_read` does: its return value and the value it
leaves in `*val`. -/
structure reg_read where
  ret : Int
  val : Nat
  deriving DecidableEq, Repr

/-- Rendering of an `unsigned int` argument of a `%x` conversion. -/
def fmt_x (n : Nat) : String := String.mk (Nat.toDigits 16 n)

/-- Rendering of an `unsigned int` argument of a `%02X` conversion. -/
def fmt_02X (n : Nat) : String :=
  let ds := (Nat.toDigits 16 n).map Char.toUpper
  String.mk (List.replicate (2 - ds.length) '0' ++ ds)

/-- What a call of `max77804k_muic_set_debounce_time` leaves behind: its return
value, the device record, and the register accesses it made, oldest first. -/
structure debounce_result where
  ret : Int
  info : max77804k_muic_info
  accesses : List regmap_access
  deriving DecidableEq, Repr

/-- The function `max77804k_muic_set_debounce_time`.  `rd` is the outcome of
its read of the PMIC identity register and `upd` gives the return value of
`regmap_update_bits` for the call it makes. -/
def max77804k_muic_set_debounce_time (k : max77804k_private_regs) (rd : reg_read)
    (upd : regmap_access → Int) (info : max77804k_muic_info) (value : Nat) : debounce_result :=
  if value > MAX77804K_DEBOUNCE_TIME_38_62MS then
    { ret := -EINVAL,
      info := { info with dev := info.dev ++ ["Invalid ADC debounce time!\n"] },
      accesses := [] }
  else
    let rd_access := regmap_access.regmap_read regmap_id.regmap k.MAX77804K_PMIC_REG_PMIC_ID1
    let ret := rd.ret
    let pmic_id1 := rd.val % 2 ^ 32
    if ret < 0 then
      { ret := ret,
        info := { info with dev := info.dev ++ ["Failed to read PMIC ID\n"] },
        accesses := [rd_access] }
    else
      let info := { info with dev := info.dev ++ ["pmic_id1: 0x" ++ fmt_02X pmic_id1 ++ "\n"] }
      let upd_access :=
        if pmic_id1 = 0x34 then
          regmap_access.regmap_update_bits regmap_id.regmap_muic k.MAX77804K_MUIC_REG_CTRL4
            ((k.MAX77804K_MUIC_CTRL4_ADCDBSET_MASK ||| k.MAX77804K_MUIC_CTRL4_ADCMODE_MASK)
              % 2 ^ 32)
            ((value <<< k.MAX77804K_MUIC_CTRL4_ADCDBSET_SHIFT) % 2 ^ 32)
        else
          regmap_access.regmap_update_bits regmap_id.regmap_muic k.MAX77804K_MUIC_REG_CTRL3
            (k.MAX77804K_MUIC_CTRL3_ADCDBSET_MASK % 2 ^ 32)
            ((value <<< k.MAX77804K_MUIC_CTRL3_ADCDBSET_SHIFT) % 2 ^ 32)
      let ret := upd upd_access
      let info :=
        if ret < 0 then
          { info with dev := info.dev ++ ["failed to update ADC debounce time\n"] }
        else info
      { ret := ret, info := info, accesses := [rd_access, upd_access] }

/-- Modelled from the spec: the register addresses and control bit fields of
`linux/mfd/max77804k-private.h` are missing from the translated sources.  The
specification only says that the debounce selector is the bit field ADCDBSET of
CTRL4 (written together with ADCMODE) on revision 0x34 and the bit field
ADCDBSET of CTRL3 otherwise; this table, used for the concrete evaluations,
gives the registers distinct addresses and puts ADCDBSET in bits 1..0 and
ADCMODE in bits 7..6 of CTRL4, and ADCDBSET in bits 5..4 of CTRL3. -/
def sample_private_regs : max77804k_private_regs where
  MAX77804K_PMIC_REG_PMIC_ID1 := 0x20
  MAX77804K_MUIC_REG_ID := 0x00
  MAX77804K_MUIC_REG_INT1 := 0x01
  MAX77804K_MUIC_REG_STATUS1 := 0x04
  MAX77804K_MUIC_REG_CDETCTRL1 := 0x0a
  MAX77804K_MUIC_REG_CTRL3 := 0x0e
  MAX77804K_MUIC_REG_CTRL4 := 0x16
  MAX77804K_MUIC_CTRL3_ADCDBSET_MASK := 0x30
  MAX77804K_MUIC_CTRL3_ADCDBSET_SHIFT := 4
  MAX77804K_MUIC_CTRL4_ADCDBSET_MASK := 0x03
  MAX77804K_MUIC_CTRL4_ADCDBSET_SHIFT := 0
  MAX77804K_MUIC_CTRL4_ADCMODE_MASK := 0xc0

/-- A transport on which every `regmap_update_bits` call succeeds. -/
def update_ok : regmap_access → Int := fun _ => 0

/-- A transport on which every `regmap_update_bits` call fails with `-EIO`. -/
def update_failed : regmap_access → Int := fun _ => -5

/-! ## Bring-up and teardown -/

/-- The members of the parent device `struct max77693_dev` that the driver
creates and releases: whether the MUIC dummy I2C device `i2c_muic` is
registered, whether `regmap_muic` is initialised, and whether the MUIC regmap
IRQ chip `irq_data_muic` is added. -/
structure max77693_dev where
  i2c_muic : Bool
  regmap_muic : Bool
  irq_data_muic : Bool
  deriving DecidableEq, Repr

/-- Everything the driver owns: the device record, the parent device members,
the contents of the static table `max77804k_muic_irq_types[]`, the interrupt
identifiers for which `request_threaded_irq` installed the handler and that
`free_irq` has not released, and the register accesses made, oldest first. -/
structure muic_driver where
  info : max77804k_muic_info
  max77804k : max77693_dev
  irq_types : List max77804k_muic_irq
  irqs : List Nat
  regs : List regmap_access
  deriving DecidableEq, Repr

/-- The outcomes of the kernel calls made by `max77804k_muic_probe`.  A
pointer-returning call is `none` when it succeeds and `some e` when it returns
`ERR_PTR(e)`; `devm_kzalloc` is `true` when it returns a record.
`regmap_irq_get_virq` is given per logical source, `request_threaded_irq` per
interrupt identifier, `regmap_update_bits` per call. -/
structure probe_env where
  devm_kzalloc : Bool
  i2c_new_dummy_device : Option Int
  devm_regmap_init_i2c : Option Int
  regmap_add_irq_chip : Int
  devm_extcon_dev_allocate : Option Int
  devm_extcon_dev_register : Int
  pmic_id1 : reg_read
  regmap_update_bits : regmap_access → Int
  status : bulk_read
  muic_id : reg_read
  int1 : bulk_read
  regmap_irq_get_virq : Nat → Int
  request_threaded_irq : Nat → Int

/-- The function `max77804k_init_muic_regmap`.  Its `dev_err` lines go to the
parent I2C device, not to `info->dev`, and are not recorded. -/
def max77804k_init_muic_regmap (env : probe_env) (max77804k : max77693_dev) :
    Int × max77693_dev :=
  match env.i2c_new_dummy_device with
  | some e => (e, max77804k)
  | none =>
    let max77804k := { max77804k with i2c_muic := true }
    match env.devm_regmap_init_i2c with
    | some e => (e, { max77804k with i2c_muic := false })
    | none =>
      let max77804k := { max77804k with regmap_muic := true }
      let ret := env.regmap_add_irq_chip
      if ret < 0 then
        (ret, { max77804k with i2c_muic := false })
      else
        (0, { max77804k with irq_data_muic := true })

/-- The result of the interrupt-request loop of `max77804k_muic_probe`: `ret`
is `none` when the loop ran to its end and `some r` when it left for
`err_muic_irq` with `ret = r`; `log` are the lines written on the way. -/
structure request_irqs_result where
  ret : Option Int
  irq_types : List max77804k_muic_irq
  irqs : List Nat
  log : List String
  deriving DecidableEq, Repr

/-- The loop `for (i = 0; i < ARRAY_SIZE(max77804k_muic_irq_types); i++)` of
`max77804k_muic_probe` over the rows that remain, `irqs` being the identifiers
requested so far. -/
def probe_request_irqs (env : probe_env) :
    List max77804k_muic_irq → List Nat → request_irqs_result
  | [], irqs => { ret := none, irq_types := [], irqs := irqs, log := [] }
  | muic_irq :: rest, irqs =>
    let virq := env.regmap_irq_get_virq muic_irq.irq
    if virq ≤ 0 then
      { ret := some (-EINVAL), irq_types := muic_irq :: rest, irqs := irqs, log := [] }
    else
      let muic_irq := { muic_irq with virq := uint_of_int virq }
      let ret := env.request_threaded_irq (uint_of_int virq)
      if ret ≠ 0 then
        { ret := some ret, irq_types := muic_irq :: rest, irqs := irqs,
          log := ["Failed to request irq (IRQ: " ++ fmt_d (int_of_uint muic_irq.irq) ++ " (" ++
            muic_irq.name ++ "), error: " ++ fmt_d ret ++ ")\n"] }
      else
        let r := probe_request_irqs env rest (irqs ++ [uint_of_int virq])
        { r with irq_types := muic_irq :: r.irq_types }

/-- The label `err_muic_irq` of `max77804k_muic_probe`: the IRQ chip is
deleted, the MUIC I2C device unregistered, and `ret` returned. -/
def err_muic_irq (ret : Int) (d : muic_driver) : Int × Option muic_driver :=
  (ret, some { d with max77804k := { d.max77804k with irq_data_muic := false, i2c_muic := false } })

/-- The function `max77804k_muic_probe`, given the parent device members and
the contents `tbl` of `max77804k_muic_irq_types[]` it finds.  The result is the
return value and what the driver owns afterwards (`none` when no record was
allocated). -/
def max77804k_muic_probe (k : max77804k_private_regs) (env : probe_env)
    (max77804k : max77693_dev) (tbl : List max77804k_muic_irq) : Int × Option muic_driver :=
  if env.devm_kzalloc = false then
    (-ENOMEM, none)
  else
    let info : max77804k_muic_info :=
      { dev := [], edev := [], mutex := false, irq_work := false, wq_detcable := false,
        status := ⟨0, 0, 0⟩, irq_adc := false, irq_chg := false,
        cable_type := CABLE_TYPE_NONE_MUIC, adc := 0, chgtyp := 0, vbvolt := 0 }
    let info := { info with cable_type := CABLE_TYPE_UNKNOWN_MUIC }
    let info := { info with mutex := false }
    let r := max77804k_init_muic_regmap env max77804k
    let ret := r.1
    let max77804k := r.2
    if ret ≠ 0 then
      let info := { info with dev := info.dev ++ ["Failed to init MUIC regmap\n"] }
      (ret, some { info := info, max77804k := max77804k, irq_types := tbl, irqs := [], regs := [] })
    else
      match env.devm_extcon_dev_allocate with
      | some e =>
        let info := { info with dev := info.dev ++ ["Failed to allocate memory for extcon\n"] }
        err_muic_irq e
          { info := info, max77804k := max77804k, irq_types := tbl, irqs := [], regs := [] }
      | none =>
        let info := { info with edev := [] }
        let ret := env.devm_extcon_dev_register
        if ret ≠ 0 then
          let info := { info with dev := info.dev ++ ["Failed to register extcon device\n"] }
          err_muic_irq ret
            { info := info, max77804k := max77804k, irq_types := tbl, irqs := [], regs := [] }
        else
          let db := max77804k_muic_set_debounce_time k env.pmic_id1 env.regmap_update_bits info
            MAX77804K_DEBOUNCE_TIME_25MS
          let info := db.info
          let regs := db.accesses
          let cdet := regmap_access.regmap_update_bits regmap_id.regmap_muic
            k.MAX77804K_MUIC_REG_CDETCTRL1 (2 ^ 5) 0
          let regs := regs ++ [cdet]
          let regs := regs ++ [regmap_access.regmap_bulk_read regmap_id.regmap_muic
            k.MAX77804K_MUIC_REG_STATUS1 3]
          let ret := env.status.ret
          let info := { info with status := store_status env.status }
          if ret ≠ 0 then
            let info := { info with dev := info.dev ++ ["Cannot read STATUS registers\n"] }
            err_muic_irq ret
              { info := info, max77804k := max77804k, irq_types := tbl, irqs := [], regs := regs }
          else
            let regs := regs ++ [regmap_access.regmap_read regmap_id.regmap_muic
              k.MAX77804K_MUIC_REG_ID]
            let ret := env.muic_id.ret
            let id := env.muic_id.val % 2 ^ 32
            if ret < 0 then
              let info := { info with dev := info.dev ++ ["Failed to read revision number\n"] }
              err_muic_irq ret
                { info := info, max77804k := max77804k, irq_types := tbl, irqs := [],
                  regs := regs }
            else
              let info :=
                { info with dev := info.dev ++ ["MUIC device ID : 0x" ++ fmt_x id ++ "\n"] }
              let info := { info with irq_work := false }
              let regs := regs ++ [regmap_access.regmap_bulk_read regmap_id.regmap_muic
                k.MAX77804K_MUIC_REG_INT1 3]
              let ret := env.int1.ret
              let info := { info with status := store_status env.int1 }
              if ret ≠ 0 then
                let info := { info with dev := info.dev ++ ["Failed to Clear IRQ bits\n"] }
                err_muic_irq ret
                  { info := info, max77804k := max77804k, irq_types := tbl, irqs := [],
                    regs := regs }
              else
                let lp := probe_request_irqs env tbl []
                let info := { info with dev := info.dev ++ lp.log }
                match lp.ret with
                | some ret =>
                  err_muic_irq ret
                    { info := info, max77804k := max77804k, irq_types := lp.irq_types,
                      irqs := lp.irqs, regs := regs }
                | none =>
                  let info := { info with wq_detcable := false }
                  let info := { info with wq_detcable := schedule_work info.wq_detcable }
                  (0, some
                    { info := info, max77804k := max77804k, irq_types := lp.irq_types,
                      irqs := lp.irqs, regs := regs })

/-- The function `max77804k_muic_remove`, in a driver state in which no work
function is running. -/
def max77804k_muic_remove (d : muic_driver) : Int × muic_driver :=
  let info := d.info
  let max77804k := d.max77804k
  let info := { info with dev := info.dev ++ ["freeing extcon IRQs...\n"] }
  let irqs := d.irq_types.foldl (fun irqs muic_irq => irqs.erase muic_irq.virq) d.irqs
  let info := { info with dev := info.dev ++ ["removing extcon device\n"] }
  let info := { info with irq_work := false }
  let max77804k := { max77804k with irq_data_muic := false }
  let max77804k := { max77804k with i2c_muic := false }
  (0, { d with info := info, max77804k := max77804k, irqs := irqs })

/-- A driver state without its log lines and its register-access trace. -/
def without_trace (d : muic_driver) : muic_driver :=
  { d with info := { d.info with dev := [] }, regs := [] }

/-- The parent device members before the MUIC driver is probed. -/
def fresh_max77693_dev : max77693_dev :=
  { i2c_muic := false, regmap_muic := false, irq_data_muic := false }

/-- A bring-up in which every kernel call succeeds: the PMIC identity register
reads 0x34, the status block reads (0x1f, 0x00, 0x00), the MUIC identity
register reads 0x15, the interrupt block reads zeroes, and logical source `i`
is resolved to interrupt identifier `100 + i`. -/
def sample_probe_env : probe_env where
  devm_kzalloc := true
  i2c_new_dummy_device := none
  devm_regmap_init_i2c := none
  regmap_add_irq_chip := 0
  devm_extcon_dev_allocate := none
  devm_extcon_dev_register := 0
  pmic_id1 := ⟨0, 0x34⟩
  regmap_update_bits := update_ok
  status := sample_read_open
  muic_id := ⟨0, 0x15⟩
  int1 := ⟨0, ⟨0, 0, 0⟩⟩
  regmap_irq_get_virq := fun i => 100 + (i : Int)
  request_threaded_irq := fun _ => 0

/-- The driver state after the bring-up `sample_probe_env` on a fresh parent
device and the table as statically initialised. -/
def sample_probed : muic_driver :=
  match (max77804k_muic_probe sample_private_regs sample_probe_env fresh_max77693_dev
      (max77804k_muic_irq_types (fun _ => 0))).2 with
  | some d => d
  | none =>
    { info := probe_info, max77804k := fresh_max77693_dev, irq_types := [], irqs := [],
      regs := [] }

/-! ## The running driver -/

/-- One operation of the driver on the device record: the interrupt handler,
the two detection passes, the classifier (which only reads the record), the
debounce configurator, the workqueue taking a queued work item, and teardown. -/
inductive driver_op : max77804k_muic_info → max77804k_muic_info → Prop
  | irq_handler (tbl : List max77804k_muic_irq) (irq : Int) (info : max77804k_muic_info) :
      driver_op info (max77804k_muic_irq_handler tbl irq info).2
  | irq_work (h : max77804k_private) (rd : bulk_read) (info : max77804k_muic_info) :
      driver_op info (max77804k_muic_irq_work h rd info)
  | detect_cable_wq (h : max77804k_private) (rd : bulk_read) (info : max77804k_muic_info) :
      driver_op info (max77804k_muic_detect_cable_wq h rd info)
  | is_cable_attached (h : max77804k_private) (info : max77804k_muic_info) (attached : Bool)
      (hres : max77804k_muic_is_cable_attached h info = attached) : driver_op info info
  | set_debounce_time (k : max77804k_private_regs) (rd : reg_read) (upd : regmap_access → Int)
      (info : max77804k_muic_info) (value : Nat) :
      driver_op info (max77804k_muic_set_debounce_time k rd upd info value).info
  | take_irq_work (info : max77804k_muic_info) : driver_op info { info with irq_work := false }
  | take_wq_detcable (info : max77804k_muic_info) :
      driver_op info { info with wq_detcable := false }
  | remove (d : muic_driver) : driver_op d.info (max77804k_muic_remove d).2.info

/-- The device records the driver can be in: the one `max77804k_muic_probe`
leaves, and every record obtained from such a one by a driver operation. -/
inductive reachable : max77804k_muic_info → Prop
  | probe (k : max77804k_private_regs) (env : probe_env) (max77804k : max77693_dev)
      (tbl : List max77804k_muic_irq) (d : muic_driver)
      (hprobe : (max77804k_muic_probe k env max77804k tbl).2 = some d) : reachable d.info
  | step (a b : max77804k_muic_info) (ha : reachable a) (hop : driver_op a b) : reachable b

/-! ## Vocabulary of the specification -/

/-- The two event classes of the interrupt demultiplexer. -/
inductive event_class
  | adc_group
  | chg_group
  deriving DecidableEq, Repr

/-- The four ADC-group sources: ADC, ADCLOW, ADCERR, ADC1K. -/
def adc_group_source (irq_type : Int) : Prop :=
  irq_type = MAX77804K_MUIC_IRQ_INT1_ADC_TYPE ∨ irq_type = MAX77804K_MUIC_IRQ_INT1_ADCLOW_TYPE ∨
    irq_type = MAX77804K_MUIC_IRQ_INT1_ADCERR_TYPE ∨ irq_type = MAX77804K_MUIC_IRQ_INT1_ADC1K_TYPE

instance : DecidablePred adc_group_source := fun t => by
  unfold adc_group_source
  exact inferInstance

/-- The six charger-group sources: CHGTYP, CHGDETREUN, DCDTMR, DXOVP, VBVOLT, VIDRM. -/
def chg_group_source (irq_type : Int) : Prop :=
  irq_type = MAX77804K_MUIC_IRQ_INT2_CHGTYP_TYPE ∨
    irq_type = MAX77804K_MUIC_IRQ_INT2_CHGDETREUN_TYPE ∨
    irq_type = MAX77804K_MUIC_IRQ_INT2_DCDTMR_TYPE ∨
    irq_type = MAX77804K_MUIC_IRQ_INT2_DXOVP_TYPE ∨
    irq_type = MAX77804K_MUIC_IRQ_INT2_VBVOLT_TYPE ∨
    irq_type = MAX77804K_MUIC_IRQ_INT2_VIDRM_TYPE

instance : DecidablePred chg_group_source := fun t => by
  unfold chg_group_source
  exact inferInstance

/-- The six INT3 sources: EOC, CGMBC, OVP, MBCCHGERR, CHGENABLED, BATDET. -/
def int3_source (irq_type : Int) : Prop :=
  irq_type = MAX77804K_MUIC_IRQ_INT3_EOC_TYPE ∨
    irq_type = MAX77804K_MUIC_IRQ_INT3_CGMBC_TYPE ∨
    irq_type = MAX77804K_MUIC_IRQ_INT3_OVP_TYPE ∨
    irq_type = MAX77804K_MUIC_IRQ_INT3_MBCCHGERR_TYPE ∨
    irq_type = MAX77804K_MUIC_IRQ_INT3_CHGENABLED_TYPE ∨
    irq_type = MAX77804K_MUIC_IRQ_INT3_BATDET_TYPE

instance : DecidablePred int3_source := fun t => by
  unfold int3_source
  exact inferInstance

/-- The event class of a logical interrupt source: the four INT1 sources are
the ADC group, the six INT2 sources the charger group, the others none. -/
def source_class (irq_type : Int) : Option event_class :=
  if adc_group_source irq_type then some event_class.adc_group
  else if chg_group_source irq_type then some event_class.chg_group
  else none

/-- A device state with the sticky flag of class `c` raised and the work item
`irq_work` pending. -/
def raise_pending (c : event_class) (info : max77804k_muic_info) : max77804k_muic_info :=
  match c with
  | event_class.adc_group => { info with irq_adc := true, irq_work := true }
  | event_class.chg_group => { info with irq_chg := true, irq_work := true }

/-- The sticky pending flag of an event class. -/
def sticky_flag (c : event_class) (info : max77804k_muic_info) : Bool :=
  match c with
  | event_class.adc_group => info.irq_adc
  | event_class.chg_group => info.irq_chg

/-- The previous cable types that name an accessory needing a
ground-referenced connection: OTG, car dock, the smartdock variants, audio dock. -/
def ground_referenced_accessory (c : max77804k_cable_type_muic) : Prop :=
  c = CABLE_TYPE_OTG_MUIC ∨ c = CABLE_TYPE_CARDOCK_MUIC ∨ c = CABLE_TYPE_SMARTDOCK_MUIC ∨
    c = CABLE_TYPE_SMARTDOCK_TA_MUIC ∨ c = CABLE_TYPE_SMARTDOCK_USB_MUIC ∨
    c = CABLE_TYPE_AUDIODOCK_MUIC

instance : DecidablePred ground_referenced_accessory := fun c => by
  unfold ground_referenced_accessory
  exact inferInstance

/-- The charger types USB, DOWNSTREAM_PORT, DEDICATED_CHGR, 500MA and 1A. -/
def usb_charger_signature (chgtyp : Nat) : Prop :=
  chgtyp = MAX77804K_MUIC_CHGTYP_USB ∨ chgtyp = MAX77804K_MUIC_CHGTYP_DOWNSTREAM_PORT ∨
    chgtyp = MAX77804K_MUIC_CHGTYP_DEDICATED_CHGR ∨ chgtyp = MAX77804K_MUIC_CHGTYP_500MA ∨
    chgtyp = MAX77804K_MUIC_CHGTYP_1A

instance : DecidablePred usb_charger_signature := fun n => by
  unfold usb_charger_signature
  exact inferInstance

/-- The ADC codes of the contiguous range CEA936ATYPE1_CHG (0x17) .. JIG_UART_ON (0x1d). -/
def in_jig_range (adc : Nat) : Prop :=
  MAX77804K_MUIC_ADC_CEA936ATYPE1_CHG ≤ adc ∧ adc ≤ MAX77804K_MUIC_ADC_JIG_UART_ON

instance : DecidablePred in_jig_range := fun n => by
  unfold in_jig_range
  exact inferInstance

/-- Two device states used to compare classifier results: ADC code
JIG_USB_OFF (0x18), charger type NO_VOLTAGE, previous cable type USB, and
recorded charger type NO_VOLTAGE (0) in the first, USB (1) in the second. -/
def jig_state_recorded_none : max77804k_muic_info :=
  { snapshot_info 0x18 0x00 CABLE_TYPE_USB_MUIC with chgtyp := MAX77804K_MUIC_CHGTYP_NO_VOLTAGE }

/-- See `jig_state_recorded_none`. -/
def jig_state_recorded_usb : max77804k_muic_info :=
  { snapshot_info 0x18 0x00 CABLE_TYPE_USB_MUIC with chgtyp := MAX77804K_MUIC_CHGTYP_USB }

/-- The resolved table used for the concrete evaluations: row `i` has
`virq = 100 + i`. -/
def sample_irq_types : List max77804k_muic_irq :=
  max77804k_muic_irq_types (fun i => 100 + i)

/-- The probe-time record after an ADC-group interrupt has been demultiplexed:
`irq_adc` raised and `irq_work` pending. -/
def pending_adc_info : max77804k_muic_info :=
  { probe_info with irq_adc := true, irq_work := true }

/-! ## The classifier: branch by branch -/

/-- C1 (ground short-circuit): whenever the decoded ADC code is GROUND (0x00),
`max77804k_muic_is_cable_attached` returns true, whatever the other status
bits, the stored cable type and the recorded charger type are. -/
theorem is_cable_attached_ground (h : max77804k_private) (info : max77804k_muic_info)
    (hadc : decoded_adc h info = MAX77804K_MUIC_ADC_GND) :
    max77804k_muic_is_cable_attached h info = true := by
  unfold max77804k_muic_is_cable_attached
  simp [hadc]

/-- Witness of C1: the snapshot (GROUND, charger type 0, error 0, ovp 0) with
previous cable type UNKNOWN is classified as attached. -/
theorem is_cable_attached_ground_witness :
    decoded_adc sample_private (snapshot_info 0x00 0x00 CABLE_TYPE_UNKNOWN_MUIC)
        = MAX77804K_MUIC_ADC_GND ∧
      max77804k_muic_is_cable_attached sample_private
        (snapshot_info 0x00 0x00 CABLE_TYPE_UNKNOWN_MUIC) = true :=
  ⟨by decide, is_cable_attached_ground _ _ (by decide)⟩

theorem is_cable_attached_open_no_voltage_decoded (h : max77804k_private)
    (info : max77804k_muic_info)
    (hadc : decoded_adc h info = MAX77804K_MUIC_ADC_OPEN)
    (herr : decoded_adcerr h info = 0)
    (hchg : decoded_chgtyp h info = MAX77804K_MUIC_CHGTYP_NO_VOLTAGE) :
    (decoded_dxovp h info ≠ 0 → max77804k_muic_is_cable_attached h info = true) ∧
      (decoded_dxovp h info = 0 → max77804k_muic_is_cable_attached h info = false) := by
  unfold max77804k_muic_is_cable_attached
  constructor
  · intro hov
    simp [hadc, herr, hchg, hov, MAX77804K_MUIC_ADC_OPEN, MAX77804K_MUIC_ADC_GND,
      MAX77804K_MUIC_ADC_CEA936ATYPE1_CHG, MAX77804K_MUIC_ADC_JIG_UART_ON]
  · intro hov
    simp [hadc, herr, hchg, hov, MAX77804K_MUIC_ADC_OPEN, MAX77804K_MUIC_ADC_GND,
      MAX77804K_MUIC_ADC_CEA936ATYPE1_CHG, MAX77804K_MUIC_ADC_JIG_UART_ON]

/-- C2 (overvoltage override): let `adc` and `adcerr` be STATUS1 masked and
shifted by the ADC and ADC-error fields, and `chgtyp` and `dxovp` be STATUS2
masked and shifted by the charger-type and D+/D- overvoltage fields.  When
`adc` is OPEN (0x1f), the ADC-error bit is clear and `chgtyp` is NO_VOLTAGE,
the classifier returns true if the overvoltage bit is set and false if it is
clear, for every stored cable type and recorded charger type. -/
theorem is_cable_attached_open_no_voltage (h : max77804k_private) (info : max77804k_muic_info)
    (adc adcerr chgtyp dxovp : Nat)
    (hadc_field : adc =
      (((info.status.MAX77804K_MUIC_STATUS1 &&& h.MAX77804K_MUIC_STATUS1_ADC_MASK) % 256)
        >>> h.MAX77804K_MUIC_STATUS1_ADC_SHIFT) % 256)
    (herr_field : adcerr =
      (((info.status.MAX77804K_MUIC_STATUS1 &&& h.MAX77804K_MUIC_STATUS1_ADCERR_MASK) % 256)
        >>> h.MAX77804K_MUIC_STATUS1_ADCERR_SHIFT) % 256)
    (hchg_field : chgtyp =
      (((info.status.MAX77804K_MUIC_STATUS2 &&& h.MAX77804K_MUIC_STATUS2_CHGTYP_MASK) % 256)
        >>> h.MAX77804K_MUIC_STATUS2_CHGTYP_SHIFT) % 256)
    (hovp_field : dxovp =
      (((info.status.MAX77804K_MUIC_STATUS2 &&& h.MAX77804K_MUIC_STATUS2_DXOVP_MASK) % 256)
        >>> h.MAX77804K_MUIC_STATUS2_DXOVP_SHIFT) % 256)
    (hadc : adc = MAX77804K_MUIC_ADC_OPEN)
    (herr : adcerr = 0)
    (hchg : chgtyp = MAX77804K_MUIC_CHGTYP_NO_VOLTAGE) :
    (dxovp ≠ 0 → max77804k_muic_is_cable_attached h info = true) ∧
      (dxovp = 0 → max77804k_muic_is_cable_attached h info = false) := by
  subst hadc_field herr_field hchg_field hovp_field
  exact is_cable_attached_open_no_voltage_decoded h info hadc herr hchg

/-- Witness of C2: with previous cable type UNKNOWN, the snapshot
(OPEN, NO_VOLTAGE, error 0) is classified as attached when the overvoltage bit
is set (STATUS2 = 0x20) and as detached when it is clear (STATUS2 = 0x00). -/
theorem is_cable_attached_open_no_voltage_witness :
    max77804k_muic_is_cable_attached sample_private
        (snapshot_info 0x1f 0x20 CABLE_TYPE_UNKNOWN_MUIC) = true ∧
      max77804k_muic_is_cable_attached sample_private
        (snapshot_info 0x1f 0x00 CABLE_TYPE_UNKNOWN_MUIC) = false :=
  ⟨(is_cable_attached_open_no_voltage sample_private
      (snapshot_info 0x1f 0x20 CABLE_TYPE_UNKNOWN_MUIC) 0x1f 0 0 1
      rfl rfl rfl rfl (by decide) (by decide) (by decide)).1
      (by decide),
   (is_cable_attached_open_no_voltage sample_private
      (snapshot_info 0x1f 0x00 CABLE_TYPE_UNKNOWN_MUIC) 0x1f 0 0 0
      rfl rfl rfl rfl (by decide) (by decide) (by decide)).2
      (by decide)⟩

/-- C5 (default bias): when the decoded ADC code is not GROUND, not in the
range 0x17..0x1d and not OPEN (any code in 0x01..0x16, or 0x1e), the classifier
returns true regardless of the stored cable type, the charger type and the two
flag bits. -/
theorem is_cable_attached_default (h : max77804k_private) (info : max77804k_muic_info)
    (hgnd : decoded_adc h info ≠ MAX77804K_MUIC_ADC_GND)
    (hrange : ¬ (MAX77804K_MUIC_ADC_CEA936ATYPE1_CHG ≤ decoded_adc h info ∧
      decoded_adc h info ≤ MAX77804K_MUIC_ADC_JIG_UART_ON))
    (hopen : decoded_adc h info ≠ MAX77804K_MUIC_ADC_OPEN) :
    max77804k_muic_is_cable_attached h info = true := by
  unfold max77804k_muic_is_cable_attached
  simp only [hgnd, hrange, hopen, if_false]

/-- Witness of C5: ADC code PHONE_POWERED (0x1e) with charger type NO_VOLTAGE
and previous cable type OTG is classified as attached. -/
theorem is_cable_attached_default_witness :
    max77804k_muic_is_cable_attached sample_private
      (snapshot_info 0x1e 0x00 CABLE_TYPE_OTG_MUIC) = true :=
  is_cable_attached_default sample_private (snapshot_info 0x1e 0x00 CABLE_TYPE_OTG_MUIC)
    (by decide) (by decide) (by decide)

/-- Counterexample to C7: two device states with the same three status bytes
(ADC code 0x18, charger type NO_VOLTAGE) and the same stored cable type (USB)
that differ only in the recorded charger type `chgtyp` get different results. -/
theorem is_cable_attached_depends_on_recorded_chgtyp :
    jig_state_recorded_none.status = jig_state_recorded_usb.status ∧
      jig_state_recorded_none.cable_type = jig_state_recorded_usb.cable_type ∧
      max77804k_muic_is_cable_attached sample_private jig_state_recorded_none = true ∧
      max77804k_muic_is_cable_attached sample_private jig_state_recorded_usb = false := by
  decide

/-- C7 as amended: the classifier is a function of the status snapshot, the
stored cable type and the recorded charger type: two device states with the
same three status bytes, the same `cable_type` and the same `chgtyp` get the
same result, whatever their other fields (`adc`, `vbvolt`, the two interrupt
flags, the work items, the lock) are. -/
theorem is_cable_attached_inputs (h : max77804k_private) (a b : max77804k_muic_info)
    (hstatus : a.status = b.status) (hcable : a.cable_type = b.cable_type)
    (hchg : a.chgtyp = b.chgtyp) :
    max77804k_muic_is_cable_attached h a = max77804k_muic_is_cable_attached h b := by
  unfold max77804k_muic_is_cable_attached decoded_adc decoded_adcerr decoded_chgtyp
    decoded_dxovp
  rw [hstatus, hcable, hchg]

/-- Witness of C7 as amended: changing `adc`, `vbvolt` and both interrupt
flags of a state leaves the classifier's result unchanged. -/
theorem is_cable_attached_inputs_witness :
    max77804k_muic_is_cable_attached sample_private jig_state_recorded_usb =
      max77804k_muic_is_cable_attached sample_private
        { jig_state_recorded_usb with adc := 7, vbvolt := 1, irq_adc := true, irq_chg := true } :=
  is_cable_attached_inputs sample_private jig_state_recorded_usb
    { jig_state_recorded_usb with adc := 7, vbvolt := 1, irq_adc := true, irq_chg := true }
    rfl rfl rfl

/-! ## The interrupt handler -/

theorem schedule_work_eq_true (work : Bool) : schedule_work work = true := by
  cases work <;> rfl

theorem resolve_irq_type_foldl_no_match (tbl : List max77804k_muic_irq) (irq : Int)
    (hno : ∀ e ∈ tbl, uint_of_int irq ≠ e.virq) (acc : Int) :
    tbl.foldl (fun irq_type e => if uint_of_int irq = e.virq then int_of_uint e.irq else irq_type)
      acc = acc := by
  induction tbl generalizing acc with
  | nil => rfl
  | cons e rest ih =>
    have he : uint_of_int irq ≠ e.virq := hno e (List.mem_cons_self e rest)
    rw [List.foldl_cons, if_neg he]
    exact ih (fun x hx => hno x (List.mem_cons_of_mem e hx)) acc

theorem resolve_irq_type_no_match (tbl : List max77804k_muic_irq) (irq : Int)
    (hno : ∀ e ∈ tbl, uint_of_int irq ≠ e.virq) :
    resolve_irq_type tbl irq = -1 :=
  resolve_irq_type_foldl_no_match tbl irq hno (-1)

theorem irq_handler_adc_source (tbl : List max77804k_muic_irq) (irq : Int)
    (info : max77804k_muic_info) (ht : adc_group_source (resolve_irq_type tbl irq)) :
    (max77804k_muic_irq_handler tbl irq info).2 = { info with irq_adc := true, irq_work := true } := by
  unfold adc_group_source at ht
  unfold max77804k_muic_irq_handler
  simp only [if_pos ht, schedule_work_eq_true]

theorem irq_handler_chg_source (tbl : List max77804k_muic_irq) (irq : Int)
    (info : max77804k_muic_info) (ht : chg_group_source (resolve_irq_type tbl irq)) :
    (max77804k_muic_irq_handler tbl irq info).2 = { info with irq_chg := true, irq_work := true } := by
  have hna : ¬ adc_group_source (resolve_irq_type tbl irq) := by
    unfold chg_group_source at ht
    unfold adc_group_source
    simp only [MAX77804K_MUIC_IRQ_INT1_ADC_TYPE, MAX77804K_MUIC_IRQ_INT1_ADCLOW_TYPE,
      MAX77804K_MUIC_IRQ_INT1_ADCERR_TYPE, MAX77804K_MUIC_IRQ_INT1_ADC1K_TYPE,
      MAX77804K_MUIC_IRQ_INT2_CHGTYP_TYPE, MAX77804K_MUIC_IRQ_INT2_CHGDETREUN_TYPE,
      MAX77804K_MUIC_IRQ_INT2_DCDTMR_TYPE, MAX77804K_MUIC_IRQ_INT2_DXOVP_TYPE,
      MAX77804K_MUIC_IRQ_INT2_VBVOLT_TYPE, MAX77804K_MUIC_IRQ_INT2_VIDRM_TYPE] at ht ⊢
    omega
  unfold adc_group_source at hna
  unfold chg_group_source at ht
  unfold max77804k_muic_irq_handler
  simp only [if_neg hna, if_pos ht, schedule_work_eq_true]

theorem irq_handler_int3_source (tbl : List max77804k_muic_irq) (irq : Int)
    (info : max77804k_muic_info) (ht : int3_source (resolve_irq_type tbl irq)) :
    (max77804k_muic_irq_handler tbl irq info).2 = { info with irq_work := true } := by
  have hna : ¬ adc_group_source (resolve_irq_type tbl irq) := by
    unfold int3_source at ht
    unfold adc_group_source
    simp only [MAX77804K_MUIC_IRQ_INT1_ADC_TYPE, MAX77804K_MUIC_IRQ_INT1_ADCLOW_TYPE,
      MAX77804K_MUIC_IRQ_INT1_ADCERR_TYPE, MAX77804K_MUIC_IRQ_INT1_ADC1K_TYPE,
      MAX77804K_MUIC_IRQ_INT3_EOC_TYPE, MAX77804K_MUIC_IRQ_INT3_CGMBC_TYPE,
      MAX77804K_MUIC_IRQ_INT3_OVP_TYPE, MAX77804K_MUIC_IRQ_INT3_MBCCHGERR_TYPE,
      MAX77804K_MUIC_IRQ_INT3_CHGENABLED_TYPE, MAX77804K_MUIC_IRQ_INT3_BATDET_TYPE] at ht ⊢
    omega
  have hnc : ¬ chg_group_source (resolve_irq_type tbl irq) := by
    unfold int3_source at ht
    unfold chg_group_source
    simp only [MAX77804K_MUIC_IRQ_INT2_CHGTYP_TYPE, MAX77804K_MUIC_IRQ_INT2_CHGDETREUN_TYPE,
      MAX77804K_MUIC_IRQ_INT2_DCDTMR_TYPE, MAX77804K_MUIC_IRQ_INT2_DXOVP_TYPE,
      MAX77804K_MUIC_IRQ_INT2_VBVOLT_TYPE, MAX77804K_MUIC_IRQ_INT2_VIDRM_TYPE,
      MAX77804K_MUIC_IRQ_INT3_EOC_TYPE, MAX77804K_MUIC_IRQ_INT3_CGMBC_TYPE,
      MAX77804K_MUIC_IRQ_INT3_OVP_TYPE, MAX77804K_MUIC_IRQ_INT3_MBCCHGERR_TYPE,
      MAX77804K_MUIC_IRQ_INT3_CHGENABLED_TYPE, MAX77804K_MUIC_IRQ_INT3_BATDET_TYPE] at ht ⊢
    omega
  unfold adc_group_source at hna
  unfold chg_group_source at hnc
  unfold int3_source at ht
  unfold max77804k_muic_irq_handler
  simp only [if_neg hna, if_neg hnc, if_pos ht, schedule_work_eq_true]

theorem source_trichotomy (t : Int) (ht : 0 ≤ t ∧ t < MAX77804K_MUIC_IRQ_NUM) :
    adc_group_source t ∨ chg_group_source t ∨ int3_source t := by
  unfold adc_group_source chg_group_source int3_source
  simp only [MAX77804K_MUIC_IRQ_INT1_ADC_TYPE, MAX77804K_MUIC_IRQ_INT1_ADCLOW_TYPE,
    MAX77804K_MUIC_IRQ_INT1_ADCERR_TYPE, MAX77804K_MUIC_IRQ_INT1_ADC1K_TYPE,
    MAX77804K_MUIC_IRQ_INT2_CHGTYP_TYPE, MAX77804K_MUIC_IRQ_INT2_CHGDETREUN_TYPE,
    MAX77804K_MUIC_IRQ_INT2_DCDTMR_TYPE, MAX77804K_MUIC_IRQ_INT2_DXOVP_TYPE,
    MAX77804K_MUIC_IRQ_INT2_VBVOLT_TYPE, MAX77804K_MUIC_IRQ_INT2_VIDRM_TYPE,
    MAX77804K_MUIC_IRQ_INT3_EOC_TYPE, MAX77804K_MUIC_IRQ_INT3_CGMBC_TYPE,
    MAX77804K_MUIC_IRQ_INT3_OVP_TYPE, MAX77804K_MUIC_IRQ_INT3_MBCCHGERR_TYPE,
    MAX77804K_MUIC_IRQ_INT3_CHGENABLED_TYPE, MAX77804K_MUIC_IRQ_INT3_BATDET_TYPE,
    MAX77804K_MUIC_IRQ_NUM] at ht ⊢
  omega

theorem irq_handler_of_class (tbl : List max77804k_muic_irq) (irq : Int)
    (info : max77804k_muic_info) (c : event_class)
    (hc : source_class (resolve_irq_type tbl irq) = some c) :
    (max77804k_muic_irq_handler tbl irq info).2 = raise_pending c info := by
  unfold source_class at hc
  by_cases ha : adc_group_source (resolve_irq_type tbl irq)
  · rw [if_pos ha] at hc
    cases hc
    exact irq_handler_adc_source tbl irq info ha
  · rw [if_neg ha] at hc
    by_cases hg : chg_group_source (resolve_irq_type tbl irq)
    · rw [if_pos hg] at hc
      cases hc
      exact irq_handler_chg_source tbl irq info hg
    · rw [if_neg hg] at hc
      cases hc

theorem raise_pending_idem (c : event_class) (info : max77804k_muic_info) :
    raise_pending c (raise_pending c info) = raise_pending c info := by
  cases c <;> rfl

theorem sticky_flag_raise_pending (c : event_class) (info : max77804k_muic_info) :
    sticky_flag c (raise_pending c info) = true ∧ (raise_pending c info).irq_work = true := by
  cases c <;> exact ⟨rfl, rfl⟩

theorem fire_irqs_same_class (tbl : List max77804k_muic_irq) (c : event_class)
    (irqs : List Int) (info : max77804k_muic_info)
    (hc : ∀ i ∈ irqs, source_class (resolve_irq_type tbl i) = some c) :
    fire_irqs tbl irqs (raise_pending c info) = raise_pending c info := by
  induction irqs with
  | nil => rfl
  | cons i rest ih =>
    unfold fire_irqs
    rw [List.foldl_cons, irq_handler_of_class tbl i _ c (hc i (List.mem_cons_self i rest)),
      raise_pending_idem]
    exact ih (fun x hx => hc x (List.mem_cons_of_mem i hx))

theorem fire_irqs_cons_same_class (tbl : List max77804k_muic_irq) (c : event_class)
    (irq : Int) (irqs : List Int) (info : max77804k_muic_info)
    (hc : ∀ i ∈ irq :: irqs, source_class (resolve_irq_type tbl i) = some c) :
    fire_irqs tbl (irq :: irqs) info = raise_pending c info := by
  have h1 : fire_irqs tbl (irq :: irqs) info
      = fire_irqs tbl irqs (max77804k_muic_irq_handler tbl irq info).2 := rfl
  rw [h1, irq_handler_of_class tbl irq info c (hc irq (List.mem_cons_self irq irqs))]
  exact fire_irqs_same_class tbl c irqs info (fun x hx => hc x (List.mem_cons_of_mem irq hx))

theorem process_irq_work_success (h : max77804k_private) (rd : bulk_read)
    (info : max77804k_muic_info) (hret : rd.ret = 0) :
    (process_irq_work h rd info).irq_adc = false ∧
      (process_irq_work h rd info).irq_chg = false ∧
      (process_irq_work h rd info).irq_work = false := by
  unfold process_irq_work max77804k_muic_irq_work extcon_set_state_sync
  simp only [hret, ne_eq, not_true_eq_false, if_false]
  cases info.irq_adc <;> cases info.irq_chg <;> simp

theorem source_trichotomy_row (i : Nat) (hi : i < 16) :
    adc_group_source (i : Int) ∨ chg_group_source (i : Int) ∨ int3_source (i : Int) := by
  apply source_trichotomy
  simp only [MAX77804K_MUIC_IRQ_NUM]
  omega

/-- C8 (demultiplexing): let the fired interrupt identifier be the one row `i`
of `max77804k_muic_irq_types` was resolved to (and no later row, the last match
being the one the loop keeps).  Then the loop resolves it to logical source
`i`, which is in one of the three groups, and `max77804k_muic_irq_handler` sets
`irq_adc` to true when the source is one of ADC, ADCLOW, ADCERR, ADC1K (leaving
`irq_chg` as it was), sets `irq_chg` to true when it is one of CHGTYP,
CHGDETREUN, DCDTMR, DXOVP, VBVOLT, VIDRM (leaving `irq_adc` as it was), and
leaves both flags as they were for the six INT3 sources; no flag is ever
cleared by the handler. -/
theorem irq_handler_flags (virq : Nat → Nat) (irq : Int) (info : max77804k_muic_info)
    (i : Nat) (hi : i < 16)
    (hmatch : uint_of_int irq = virq i)
    (hlast : ∀ j : Nat, i < j → j < 16 → uint_of_int irq ≠ virq j) :
    resolve_irq_type (max77804k_muic_irq_types virq) irq = (i : Int) ∧
      (adc_group_source (i : Int) ∨ chg_group_source (i : Int) ∨ int3_source (i : Int)) ∧
      (adc_group_source (i : Int) →
        (max77804k_muic_irq_handler (max77804k_muic_irq_types virq) irq info).2.irq_adc = true ∧
        (max77804k_muic_irq_handler (max77804k_muic_irq_types virq) irq info).2.irq_chg
          = info.irq_chg) ∧
      (chg_group_source (i : Int) →
        (max77804k_muic_irq_handler (max77804k_muic_irq_types virq) irq info).2.irq_chg = true ∧
        (max77804k_muic_irq_handler (max77804k_muic_irq_types virq) irq info).2.irq_adc
          = info.irq_adc) ∧
      (int3_source (i : Int) →
        (max77804k_muic_irq_handler (max77804k_muic_irq_types virq) irq info).2.irq_adc
          = info.irq_adc ∧
        (max77804k_muic_irq_handler (max77804k_muic_irq_types virq) irq info).2.irq_chg
          = info.irq_chg) ∧
      (info.irq_adc = true →
        (max77804k_muic_irq_handler (max77804k_muic_irq_types virq) irq info).2.irq_adc = true) ∧
      (info.irq_chg = true →
        (max77804k_muic_irq_handler (max77804k_muic_irq_types virq) irq info).2.irq_chg = true) := by
  have hres : resolve_irq_type (max77804k_muic_irq_types virq) irq = (i : Int) := by
    have h1 := hlast 1
    have h2 := hlast 2
    have h3 := hlast 3
    have h4 := hlast 4
    have h5 := hlast 5
    have h6 := hlast 6
    have h7 := hlast 7
    have h8 := hlast 8
    have h9 := hlast 9
    have h10 := hlast 10
    have h11 := hlast 11
    have h12 := hlast 12
    have h13 := hlast 13
    have h14 := hlast 14
    have h15 := hlast 15
    unfold resolve_irq_type max77804k_muic_irq_types
    simp only [List.foldl_cons, List.foldl_nil]
    interval_cases i <;>
      simp_all [int_of_uint]
  have htri := source_trichotomy_row i hi
  have hadc : adc_group_source (i : Int) →
      adc_group_source (resolve_irq_type (max77804k_muic_irq_types virq) irq) := by
    intro ha
    rw [hres]
    exact ha
  have hchg : chg_group_source (i : Int) →
      chg_group_source (resolve_irq_type (max77804k_muic_irq_types virq) irq) := by
    intro hg
    rw [hres]
    exact hg
  have hint3 : int3_source (i : Int) →
      int3_source (resolve_irq_type (max77804k_muic_irq_types virq) irq) := by
    intro h3
    rw [hres]
    exact h3
  refine ⟨hres, htri, ?_, ?_, ?_, ?_, ?_⟩
  · intro ha
    rw [irq_handler_adc_source _ irq info (hadc ha)]
    exact ⟨rfl, rfl⟩
  · intro hg
    rw [irq_handler_chg_source _ irq info (hchg hg)]
    exact ⟨rfl, rfl⟩
  · intro h3
    rw [irq_handler_int3_source _ irq info (hint3 h3)]
    exact ⟨rfl, rfl⟩
  · intro hset
    rcases htri with ha | hg | h3
    · rw [irq_handler_adc_source _ irq info (hadc ha)]
    · rw [irq_handler_chg_source _ irq info (hchg hg)]
      exact hset
    · rw [irq_handler_int3_source _ irq info (hint3 h3)]
      exact hset
  · intro hset
    rcases htri with ha | hg | h3
    · rw [irq_handler_adc_source _ irq info (hadc ha)]
      exact hset
    · rw [irq_handler_chg_source _ irq info (hchg hg)]
    · rw [irq_handler_int3_source _ irq info (hint3 h3)]
      exact hset

/-- Witness of C8: with row `i` resolved to identifier `100 + i`, on the
probe-time record (both flags false) firing 102 (ADCERR) raises `irq_adc` and
leaves `irq_chg` false, firing 104 (CHGTYP) and 109 (VIDRM) raises `irq_chg`
and leaves `irq_adc` false, and firing 110 (EOC) leaves both flags false. -/
theorem irq_handler_flags_witness :
    ((max77804k_muic_irq_handler (max77804k_muic_irq_types (fun i => 100 + i)) 102
          probe_info).2.irq_adc = true ∧
        (max77804k_muic_irq_handler (max77804k_muic_irq_types (fun i => 100 + i)) 102
          probe_info).2.irq_chg = false) ∧
      ((max77804k_muic_irq_handler (max77804k_muic_irq_types (fun i => 100 + i)) 104
          probe_info).2.irq_chg = true ∧
        (max77804k_muic_irq_handler (max77804k_muic_irq_types (fun i => 100 + i)) 104
          probe_info).2.irq_adc = false) ∧
      ((max77804k_muic_irq_handler (max77804k_muic_irq_types (fun i => 100 + i)) 109
          probe_info).2.irq_chg = true ∧
        (max77804k_muic_irq_handler (max77804k_muic_irq_types (fun i => 100 + i)) 109
          probe_info).2.irq_adc = false) ∧
      ((max77804k_muic_irq_handler (max77804k_muic_irq_types (fun i => 100 + i)) 110
          probe_info).2.irq_adc = false ∧
        (max77804k_muic_irq_handler (max77804k_muic_irq_types (fun i => 100 + i)) 110
          probe_info).2.irq_chg = false) :=
  ⟨(irq_handler_flags (fun i => 100 + i) 102 probe_info 2 (by decide) (by decide)
      (by intro j h1 h2; simp only [uint_of_int]; omega)).2.2.1 (by decide),
   (irq_handler_flags (fun i => 100 + i) 104 probe_info 4 (by decide) (by decide)
      (by intro j h1 h2; simp only [uint_of_int]; omega)).2.2.2.1 (by decide),
   (irq_handler_flags (fun i => 100 + i) 109 probe_info 9 (by decide) (by decide)
      (by intro j h1 h2; simp only [uint_of_int]; omega)).2.2.2.1 (by decide),
   (irq_handler_flags (fun i => 100 + i) 110 probe_info 10 (by decide) (by decide)
      (by intro j h1 h2; simp only [uint_of_int]; omega)).2.2.2.2.1 (by decide)⟩

/-- Counterexample to C9: identifier 999 matches no row of the resolved table
(rows are resolved to 100..115), yet the handler turns the clear pending bit of
`irq_work` into a set one: the detection task is scheduled. -/
theorem irq_handler_unrecognized_schedules_work :
    (∀ e ∈ sample_irq_types, uint_of_int 999 ≠ e.virq) ∧
      resolve_irq_type sample_irq_types 999 = -1 ∧
      probe_info.irq_work = false ∧
      (max77804k_muic_irq_handler sample_irq_types 999 probe_info).2.irq_work = true := by
  decide

/-- C9 as amended: for every interrupt identifier that matches no row of the
interrupt table (`irq_type` stays -1), the handler logs one line, changes
neither sticky flag nor any other field of the record except that it schedules
the work item `irq_work` (as it does for every identifier), and returns
IRQ_HANDLED. -/
theorem irq_handler_unrecognized (tbl : List max77804k_muic_irq) (irq : Int)
    (info : max77804k_muic_info) (hno : ∀ e ∈ tbl, uint_of_int irq ≠ e.virq) :
    max77804k_muic_irq_handler tbl irq info =
      (IRQ_HANDLED,
        { info with dev := info.dev ++ ["Cannot recognize IRQ(-1)\n"], irq_work := true }) := by
  unfold max77804k_muic_irq_handler
  rw [resolve_irq_type_no_match tbl irq hno]
  simp only [schedule_work_eq_true]
  rfl

/-- Witness of C9 as amended: identifier 999 on the probe-time record. -/
theorem irq_handler_unrecognized_witness :
    max77804k_muic_irq_handler sample_irq_types 999 probe_info =
      (IRQ_HANDLED,
        { probe_info with dev := ["Cannot recognize IRQ(-1)\n"], irq_work := true }) :=
  irq_handler_unrecognized sample_irq_types 999 probe_info (by decide)

/-- C10 (coalescing idempotence): with the work item modelled by its pending
bit, firing N >= 1 interrupts whose sources are all of event class `c`, with no
detection pass in between, gives the same device state (hence the same flags
and the same pending bit) as firing a single source of that class: the sticky
flag of the class is true and the work item is pending once.  After a
detection pass whose status read succeeds, that flag and the pending bit are
clear, and one further firing of the class sets the flag and the pending bit
again. -/
theorem irq_coalescing (h : max77804k_private) (virq : Nat → Nat) (c : event_class)
    (irq : Int) (irqs : List Int) (info : max77804k_muic_info)
    (hc : ∀ i ∈ irq :: irqs,
      source_class (resolve_irq_type (max77804k_muic_irq_types virq) i) = some c) :
    (∀ j : Int, source_class (resolve_irq_type (max77804k_muic_irq_types virq) j) = some c →
        fire_irqs (max77804k_muic_irq_types virq) (irq :: irqs) info =
          (max77804k_muic_irq_handler (max77804k_muic_irq_types virq) j info).2) ∧
      sticky_flag c (fire_irqs (max77804k_muic_irq_types virq) (irq :: irqs) info) = true ∧
      (fire_irqs (max77804k_muic_irq_types virq) (irq :: irqs) info).irq_work = true ∧
      (∀ rd : bulk_read, rd.ret = 0 →
        sticky_flag c (process_irq_work h rd
          (fire_irqs (max77804k_muic_irq_types virq) (irq :: irqs) info)) = false ∧
        (process_irq_work h rd
          (fire_irqs (max77804k_muic_irq_types virq) (irq :: irqs) info)).irq_work = false ∧
        (∀ j : Int,
          source_class (resolve_irq_type (max77804k_muic_irq_types virq) j) = some c →
          sticky_flag c (max77804k_muic_irq_handler (max77804k_muic_irq_types virq) j
            (process_irq_work h rd
              (fire_irqs (max77804k_muic_irq_types virq) (irq :: irqs) info))).2 = true ∧
          (max77804k_muic_irq_handler (max77804k_muic_irq_types virq) j
            (process_irq_work h rd
              (fire_irqs (max77804k_muic_irq_types virq) (irq :: irqs) info))).2.irq_work
            = true)) := by
  have hfire := fire_irqs_cons_same_class (max77804k_muic_irq_types virq) c irq irqs info hc
  refine ⟨?_, ?_, ?_, ?_⟩
  · intro j hj
    rw [hfire, irq_handler_of_class _ j info c hj]
  · rw [hfire]
    exact (sticky_flag_raise_pending c info).1
  · rw [hfire]
    exact (sticky_flag_raise_pending c info).2
  · intro rd hret
    have hw := process_irq_work_success h rd
      (fire_irqs (max77804k_muic_irq_types virq) (irq :: irqs) info) hret
    refine ⟨?_, hw.2.2, ?_⟩
    · cases c
      · exact hw.1
      · exact hw.2.1
    · intro j hj
      rw [irq_handler_of_class _ j _ c hj]
      exact sticky_flag_raise_pending c _

/-- Witness of C10: three ADC-group firings (ADC, ADCERR, ADC again) on the
probe-time record leave the same state as the single firing of ADC1K. -/
theorem irq_coalescing_witness :
    fire_irqs (max77804k_muic_irq_types (fun i => 100 + i)) [100, 102, 100] probe_info =
      (max77804k_muic_irq_handler (max77804k_muic_irq_types (fun i => 100 + i)) 103
        probe_info).2 :=
  (irq_coalescing sample_private (fun i => 100 + i) event_class.adc_group 100 [102, 100]
    probe_info (by decide)).1 103 (by decide)


/-! ## Detection passes -/

theorem is_cable_attached_congr (h : max77804k_private) (a b : max77804k_muic_info)
    (hstatus : a.status = b.status) (hcable : a.cable_type = b.cable_type)
    (hchg : a.chgtyp = b.chgtyp) :
    max77804k_muic_is_cable_attached h a = max77804k_muic_is_cable_attached h b := by
  unfold max77804k_muic_is_cable_attached decoded_adc decoded_adcerr decoded_chgtyp
    decoded_dxovp
  rw [hstatus, hcable, hchg]

theorem irq_work_read_ok (h : max77804k_private) (rd : bulk_read)
    (info : max77804k_muic_info) (hret : rd.ret = 0) :
    (max77804k_muic_irq_work h rd info).status = store_status rd ∧
      (max77804k_muic_irq_work h rd info).edev =
        info.edev ++
          [(EXTCON_USB,
              max77804k_muic_is_cable_attached h { info with status := store_status rd }),
            (EXTCON_USB_HOST, false)] ∧
      (max77804k_muic_irq_work h rd info).irq_adc = false ∧
      (max77804k_muic_irq_work h rd info).irq_chg = false ∧
      (max77804k_muic_irq_work h rd info).mutex = false ∧
      (max77804k_muic_irq_work h rd info).cable_type = info.cable_type ∧
      (max77804k_muic_irq_work h rd info).chgtyp = info.chgtyp ∧
      (max77804k_muic_irq_work h rd info).adc = info.adc ∧
      (max77804k_muic_irq_work h rd info).vbvolt = info.vbvolt := by
  unfold max77804k_muic_irq_work extcon_set_state_sync
  simp only [hret, ne_eq, not_true_eq_false, if_false]
  rcases info with ⟨dev, edev, mtx, iw, wq, st, ia, ic, ct, adc, chg, vb⟩
  cases ia <;> cases ic <;> simp <;> exact is_cable_attached_congr h _ _ rfl rfl rfl

theorem detect_cable_wq_read_ok (h : max77804k_private) (rd : bulk_read)
    (info : max77804k_muic_info) (hret : rd.ret = 0) :
    (max77804k_muic_detect_cable_wq h rd info).status = store_status rd ∧
      (max77804k_muic_detect_cable_wq h rd info).edev =
        info.edev ++
          [(EXTCON_USB,
              max77804k_muic_is_cable_attached h { info with status := store_status rd }),
            (EXTCON_USB_HOST, false)] ∧
      (max77804k_muic_detect_cable_wq h rd info).irq_adc = info.irq_adc ∧
      (max77804k_muic_detect_cable_wq h rd info).irq_chg = info.irq_chg ∧
      (max77804k_muic_detect_cable_wq h rd info).mutex = false ∧
      (max77804k_muic_detect_cable_wq h rd info).cable_type = info.cable_type ∧
      (max77804k_muic_detect_cable_wq h rd info).chgtyp = info.chgtyp ∧
      (max77804k_muic_detect_cable_wq h rd info).adc = info.adc ∧
      (max77804k_muic_detect_cable_wq h rd info).vbvolt = info.vbvolt := by
  unfold max77804k_muic_detect_cable_wq extcon_set_state_sync
  simp only [hret, ne_eq, not_true_eq_false, if_false]
  refine ⟨trivial, ?_, trivial, trivial, trivial, trivial, trivial, trivial, trivial⟩
  simp
  exact is_cable_attached_congr h _ _ rfl rfl rfl

theorem irq_work_read_failed (h : max77804k_private) (rd : bulk_read)
    (info : max77804k_muic_info) (hret : rd.ret ≠ 0) :
    max77804k_muic_irq_work h rd info =
      { info with
          status := store_status rd,
          dev := info.dev ++ ["Cannot read STATUS registers\n"],
          mutex := false } := by
  unfold max77804k_muic_irq_work
  simp only [hret, ne_eq, not_false_eq_true, if_true]

theorem detect_cable_wq_read_failed (h : max77804k_private) (rd : bulk_read)
    (info : max77804k_muic_info) (hret : rd.ret ≠ 0) :
    max77804k_muic_detect_cable_wq h rd info =
      { info with
          status := store_status rd,
          dev := info.dev ++ ["Cannot read STATUS registers\n"],
          mutex := false } := by
  unfold max77804k_muic_detect_cable_wq
  simp only [hret, ne_eq, not_false_eq_true, if_true]

/-- C11 (publication): for every device state and every successful 3-byte
status read, both kinds of detection pass, `max77804k_muic_irq_work` and
`max77804k_muic_detect_cable_wq`, store the new snapshot in `info->status` and
publish exactly two states, in this order: (EXTCON_USB, b), with b the
classifier's result on the new snapshot and the stored cable type, then
(EXTCON_USB_HOST, false); the two kinds of pass publish the same sequence. -/
theorem detection_pass_publishes (h : max77804k_private) (rd : bulk_read)
    (info : max77804k_muic_info) (hret : rd.ret = 0) :
    (max77804k_muic_irq_work h rd info).status = store_status rd ∧
      (max77804k_muic_detect_cable_wq h rd info).status = store_status rd ∧
      (max77804k_muic_irq_work h rd info).edev =
        info.edev ++
          [(EXTCON_USB,
              max77804k_muic_is_cable_attached h { info with status := store_status rd }),
            (EXTCON_USB_HOST, false)] ∧
      (max77804k_muic_detect_cable_wq h rd info).edev =
        info.edev ++
          [(EXTCON_USB,
              max77804k_muic_is_cable_attached h { info with status := store_status rd }),
            (EXTCON_USB_HOST, false)] ∧
      (max77804k_muic_irq_work h rd info).edev =
        (max77804k_muic_detect_cable_wq h rd info).edev := by
  have hw := irq_work_read_ok h rd info hret
  have hd := detect_cable_wq_read_ok h rd info hret
  refine ⟨hw.1, hd.1, hw.2.1, hd.2.1, ?_⟩
  rw [hw.2.1, hd.2.1]

/-- Witness of C11: on the probe-time record, a successful read of
(OPEN, NO_VOLTAGE) makes the interrupt-triggered pass publish USB = false and
then USB_HOST = false. -/
theorem detection_pass_publishes_witness :
    (max77804k_muic_irq_work sample_private sample_read_open probe_info).edev =
      [(EXTCON_USB, false), (EXTCON_USB_HOST, false)] :=
  (detection_pass_publishes sample_private sample_read_open probe_info (by decide)).2.2.1

/-- C12 (failed read): when the status read fails, either kind of detection
pass is abandoned: the resulting record is the old one with the read buffer,
one log line and the released lock, so nothing is published, the classifier's
result is not used, `cable_type` and both sticky flags keep their values, and
the lock is released. -/
theorem detection_pass_read_failed (h : max77804k_private) (rd : bulk_read)
    (info : max77804k_muic_info) (hret : rd.ret ≠ 0) :
    (max77804k_muic_irq_work h rd info =
        { info with
            status := store_status rd,
            dev := info.dev ++ ["Cannot read STATUS registers\n"],
            mutex := false } ∧
      (max77804k_muic_irq_work h rd info).edev = info.edev ∧
      (max77804k_muic_irq_work h rd info).cable_type = info.cable_type ∧
      (max77804k_muic_irq_work h rd info).irq_adc = info.irq_adc ∧
      (max77804k_muic_irq_work h rd info).irq_chg = info.irq_chg ∧
      (max77804k_muic_irq_work h rd info).mutex = false) ∧
    (max77804k_muic_detect_cable_wq h rd info =
        { info with
            status := store_status rd,
            dev := info.dev ++ ["Cannot read STATUS registers\n"],
            mutex := false } ∧
      (max77804k_muic_detect_cable_wq h rd info).edev = info.edev ∧
      (max77804k_muic_detect_cable_wq h rd info).cable_type = info.cable_type ∧
      (max77804k_muic_detect_cable_wq h rd info).irq_adc = info.irq_adc ∧
      (max77804k_muic_detect_cable_wq h rd info).irq_chg = info.irq_chg ∧
      (max77804k_muic_detect_cable_wq h rd info).mutex = false) := by
  rw [irq_work_read_failed h rd info hret, detect_cable_wq_read_failed h rd info hret]
  exact ⟨⟨rfl, rfl, rfl, rfl, rfl, rfl⟩, ⟨rfl, rfl, rfl, rfl, rfl, rfl⟩⟩

/-- Witness of C12: a read failing with -EIO while `irq_adc` is raised leaves
the flag raised and publishes nothing. -/
theorem detection_pass_read_failed_witness :
    (max77804k_muic_irq_work sample_private sample_read_failed pending_adc_info).irq_adc = true ∧
      (max77804k_muic_irq_work sample_private sample_read_failed pending_adc_info).edev = [] :=
  ⟨(detection_pass_read_failed sample_private sample_read_failed pending_adc_info
      (by decide)).1.2.2.2.1,
   (detection_pass_read_failed sample_private sample_read_failed pending_adc_info
      (by decide)).1.2.1⟩

/-- Counterexample to C13: the deferred initial pass, run with a successful
status read on a record whose `irq_adc` flag is raised, releases the lock with
the flag still raised. -/
theorem detect_cable_wq_keeps_flag :
    sample_read_open.ret = 0 ∧
      pending_adc_info.irq_adc = true ∧
      (max77804k_muic_detect_cable_wq sample_private sample_read_open pending_adc_info).mutex
        = false ∧
      (max77804k_muic_detect_cable_wq sample_private sample_read_open pending_adc_info).irq_adc
        = true := by
  decide

/-- C13 as amended: a detection pass whose status read succeeds clears the
sticky flags it consumes: after the interrupt-triggered pass
`max77804k_muic_irq_work` both `irq_adc` and `irq_chg` are false when the lock
is released; the deferred initial pass `max77804k_muic_detect_cable_wq`
consumes no flag and leaves both at the values they had. -/
theorem detection_pass_flags (h : max77804k_private) (rd : bulk_read)
    (info : max77804k_muic_info) (hret : rd.ret = 0) :
    ((max77804k_muic_irq_work h rd info).irq_adc = false ∧
      (max77804k_muic_irq_work h rd info).irq_chg = false ∧
      (max77804k_muic_irq_work h rd info).mutex = false) ∧
    ((max77804k_muic_detect_cable_wq h rd info).irq_adc = info.irq_adc ∧
      (max77804k_muic_detect_cable_wq h rd info).irq_chg = info.irq_chg ∧
      (max77804k_muic_detect_cable_wq h rd info).mutex = false) := by
  have hw := irq_work_read_ok h rd info hret
  have hd := detect_cable_wq_read_ok h rd info hret
  exact ⟨⟨hw.2.2.1, hw.2.2.2.1, hw.2.2.2.2.1⟩, ⟨hd.2.2.1, hd.2.2.2.1, hd.2.2.2.2.1⟩⟩

/-- Witness of C13 as amended: the interrupt-triggered pass clears the raised
`irq_adc` flag of `pending_adc_info`. -/
theorem detection_pass_flags_witness :
    (max77804k_muic_irq_work sample_private sample_read_open pending_adc_info).irq_adc = false :=
  (detection_pass_flags sample_private sample_read_open pending_adc_info (by decide)).1.1

/-! ## The debounce configurator and bring-up -/

theorem testBit_le_three (v : Nat) (hv : v ≤ 3) (j : Nat) (hb : v.testBit j = true) :
    (3 : Nat).testBit j = true := by
  have h3 : (3 : Nat) = 2 ^ 2 - 1 := by norm_num
  rw [h3, Nat.testBit_two_pow_sub_one]
  by_contra hj
  have hj2 : 2 ≤ j := by
    simp only [decide_eq_true_eq, not_lt] at hj
    exact hj
  have hlt : v < 2 ^ j := by
    calc v < 2 ^ 2 := by omega
      _ ≤ 2 ^ j := Nat.pow_le_pow_right (by norm_num) hj2
  rw [Nat.testBit_eq_false_of_lt hlt] at hb
  cases hb

theorem shifted_selector_and_eq_zero (v s m : Nat) (hv : v ≤ 3)
    (hdisj : (3 <<< s) &&& m = 0) : ((v <<< s) % 2 ^ 32) &&& m = 0 := by
  apply Nat.eq_of_testBit_eq
  intro i
  rw [Nat.zero_testBit, Nat.testBit_and, Nat.testBit_mod_two_pow]
  have hi : ((3 <<< s) &&& m).testBit i = false := by rw [hdisj, Nat.zero_testBit]
  rw [Nat.testBit_and] at hi
  by_cases hb : (v <<< s).testBit i = true
  · have h3 : (3 <<< s).testBit i = true := by
      rw [Nat.testBit_shiftLeft] at hb ⊢
      simp only [Bool.and_eq_true, decide_eq_true_eq] at hb ⊢
      exact ⟨hb.1, testBit_le_three v hv _ hb.2⟩
    rw [h3, Bool.true_and] at hi
    rw [hi, Bool.and_false]
  · simp only [Bool.not_eq_true] at hb
    rw [hb, Bool.and_false, Bool.false_and]

theorem or_and_right_self (a m : Nat) : (a ||| m) &&& m = m := by
  apply Nat.eq_of_testBit_eq
  intro i
  rw [Nat.testBit_and, Nat.testBit_or]
  cases a.testBit i <;> cases m.testBit i <;> rfl

theorem set_debounce_time_info (k : max77804k_private_regs) (rd : reg_read)
    (upd : regmap_access → Int) (info : max77804k_muic_info) (value : Nat) :
    ∃ d : List String,
      (max77804k_muic_set_debounce_time k rd upd info value).info = { info with dev := d } := by
  unfold max77804k_muic_set_debounce_time
  by_cases hv : value > MAX77804K_DEBOUNCE_TIME_38_62MS
  · rw [if_pos hv]
    exact ⟨_, rfl⟩
  · rw [if_neg hv]
    by_cases hr : rd.ret < 0
    · simp only [hr, if_true]
      exact ⟨_, rfl⟩
    · simp only [hr, if_false]
      split <;> split <;> exact ⟨_, rfl⟩

theorem probe_request_irqs_env (env : probe_env) (r : reg_read) (u : regmap_access → Int)
    (rows : List max77804k_muic_irq) (irqs : List Nat) :
    probe_request_irqs { env with pmic_id1 := r, regmap_update_bits := u } rows irqs
      = probe_request_irqs env rows irqs := by
  induction rows generalizing irqs with
  | nil => rfl
  | cons row rest ih =>
    unfold probe_request_irqs
    simp only [ih]

theorem probe_ignores_debounce_outcome (k : max77804k_private_regs) (env : probe_env)
    (max77804k : max77693_dev) (tbl : List max77804k_muic_irq) (r : reg_read)
    (u : regmap_access → Int) :
    (max77804k_muic_probe k { env with pmic_id1 := r, regmap_update_bits := u } max77804k tbl).1
        = (max77804k_muic_probe k env max77804k tbl).1 ∧
      Option.map without_trace
          (max77804k_muic_probe k { env with pmic_id1 := r, regmap_update_bits := u }
            max77804k tbl).2
        = Option.map without_trace (max77804k_muic_probe k env max77804k tbl).2 := by
  have hinit : max77804k_init_muic_regmap { env with pmic_id1 := r, regmap_update_bits := u }
      max77804k = max77804k_init_muic_regmap env max77804k := rfl
  unfold max77804k_muic_probe
  simp only [hinit, probe_request_irqs_env]
  by_cases h1 : env.devm_kzalloc = false
  · simp [h1]
  simp only [h1, if_false]
  by_cases h2 : (max77804k_init_muic_regmap env max77804k).1 ≠ 0
  · simp [h2]
  simp only [h2, if_false]
  cases h3 : env.devm_extcon_dev_allocate with
  | some e => simp
  | none =>
    by_cases h4 : env.devm_extcon_dev_register ≠ 0
    · simp [h4]
    simp only [h4, if_false]
    generalize hdb1 : max77804k_muic_set_debounce_time k r u _ _ = db1
    generalize hdb2 : max77804k_muic_set_debounce_time k env.pmic_id1 env.regmap_update_bits _ _ = db2
    obtain ⟨d1, hd1⟩ := set_debounce_time_info k r u probe_info MAX77804K_DEBOUNCE_TIME_25MS
    obtain ⟨d2, hd2⟩ := set_debounce_time_info k env.pmic_id1 env.regmap_update_bits probe_info
      MAX77804K_DEBOUNCE_TIME_25MS
    have e1 : db1.info = { probe_info with dev := d1 } := by rw [← hdb1]; exact hd1
    have e2 : db2.info = { probe_info with dev := d2 } := by rw [← hdb2]; exact hd2
    rw [e1, e2]
    cases hlp : (probe_request_irqs env tbl []).ret <;>
      split_ifs <;> simp [without_trace, err_muic_irq, probe_info]

theorem set_debounce_time_invalid (k : max77804k_private_regs) (rd : reg_read)
    (upd : regmap_access → Int) (info : max77804k_muic_info) (value : Nat)
    (hv : value > MAX77804K_DEBOUNCE_TIME_38_62MS) :
    max77804k_muic_set_debounce_time k rd upd info value =
      { ret := -EINVAL,
        info := { info with dev := info.dev ++ ["Invalid ADC debounce time!\n"] },
        accesses := [] } := by
  unfold max77804k_muic_set_debounce_time
  rw [if_pos hv]

theorem set_debounce_time_read_failed (k : max77804k_private_regs) (rd : reg_read)
    (upd : regmap_access → Int) (info : max77804k_muic_info) (value : Nat)
    (hv : value ≤ MAX77804K_DEBOUNCE_TIME_38_62MS) (hrd : rd.ret < 0) :
    max77804k_muic_set_debounce_time k rd upd info value =
      { ret := rd.ret,
        info := { info with dev := info.dev ++ ["Failed to read PMIC ID\n"] },
        accesses :=
          [regmap_access.regmap_read regmap_id.regmap k.MAX77804K_PMIC_REG_PMIC_ID1] } := by
  unfold max77804k_muic_set_debounce_time
  rw [if_neg (Nat.not_lt.mpr hv)]
  simp only [hrd, if_true]

theorem set_debounce_time_ctrl4 (k : max77804k_private_regs) (rd : reg_read)
    (upd : regmap_access → Int) (info : max77804k_muic_info) (value : Nat)
    (hv : value ≤ MAX77804K_DEBOUNCE_TIME_38_62MS) (hrd : 0 ≤ rd.ret)
    (hrev : rd.val % 2 ^ 32 = 0x34) :
    (max77804k_muic_set_debounce_time k rd upd info value).accesses =
        [regmap_access.regmap_read regmap_id.regmap k.MAX77804K_PMIC_REG_PMIC_ID1,
          regmap_access.regmap_update_bits regmap_id.regmap_muic k.MAX77804K_MUIC_REG_CTRL4
            ((k.MAX77804K_MUIC_CTRL4_ADCDBSET_MASK ||| k.MAX77804K_MUIC_CTRL4_ADCMODE_MASK)
              % 2 ^ 32)
            ((value <<< k.MAX77804K_MUIC_CTRL4_ADCDBSET_SHIFT) % 2 ^ 32)] ∧
      (max77804k_muic_set_debounce_time k rd upd info value).ret =
        upd (regmap_access.regmap_update_bits regmap_id.regmap_muic k.MAX77804K_MUIC_REG_CTRL4
          ((k.MAX77804K_MUIC_CTRL4_ADCDBSET_MASK ||| k.MAX77804K_MUIC_CTRL4_ADCMODE_MASK)
            % 2 ^ 32)
          ((value <<< k.MAX77804K_MUIC_CTRL4_ADCDBSET_SHIFT) % 2 ^ 32)) := by
  unfold max77804k_muic_set_debounce_time
  rw [if_neg (Nat.not_lt.mpr hv)]
  simp only [not_lt.mpr hrd, if_false, hrev, if_true, and_self]

theorem set_debounce_time_ctrl3 (k : max77804k_private_regs) (rd : reg_read)
    (upd : regmap_access → Int) (info : max77804k_muic_info) (value : Nat)
    (hv : value ≤ MAX77804K_DEBOUNCE_TIME_38_62MS) (hrd : 0 ≤ rd.ret)
    (hrev : rd.val % 2 ^ 32 ≠ 0x34) :
    (max77804k_muic_set_debounce_time k rd upd info value).accesses =
        [regmap_access.regmap_read regmap_id.regmap k.MAX77804K_PMIC_REG_PMIC_ID1,
          regmap_access.regmap_update_bits regmap_id.regmap_muic k.MAX77804K_MUIC_REG_CTRL3
            (k.MAX77804K_MUIC_CTRL3_ADCDBSET_MASK % 2 ^ 32)
            ((value <<< k.MAX77804K_MUIC_CTRL3_ADCDBSET_SHIFT) % 2 ^ 32)] ∧
      (max77804k_muic_set_debounce_time k rd upd info value).ret =
        upd (regmap_access.regmap_update_bits regmap_id.regmap_muic k.MAX77804K_MUIC_REG_CTRL3
          (k.MAX77804K_MUIC_CTRL3_ADCDBSET_MASK % 2 ^ 32)
          ((value <<< k.MAX77804K_MUIC_CTRL3_ADCDBSET_SHIFT) % 2 ^ 32)) := by
  unfold max77804k_muic_set_debounce_time
  rw [if_neg (Nat.not_lt.mpr hv)]
  simp only [not_lt.mpr hrd, if_false, hrev, and_self]

/-- C14 (revision-dependent register): for every valid debounce selector
(0..3) and every successfully read revision value, after the read of the PMIC
identity register `max77804k_muic_set_debounce_time` performs exactly one
register update and returns its result: on `regmap_muic` register CTRL4 with
mask `CTRL4_ADCDBSET_MASK | CTRL4_ADCMODE_MASK` and value
`value << CTRL4_ADCDBSET_SHIFT` when the revision is 0x34, on register CTRL3
with mask `CTRL3_ADCDBSET_MASK` and value `value << CTRL3_ADCDBSET_SHIFT`
otherwise.  The CTRL4 mask covers the ADCMODE bits, and when the two-bit field
at `CTRL4_ADCDBSET_SHIFT` does not overlap ADCMODE the value has zeroes there,
so the ADCMODE bits are written as zero. -/
theorem set_debounce_time_update (k : max77804k_private_regs) (rd : reg_read)
    (upd : regmap_access → Int) (info : max77804k_muic_info) (value : Nat)
    (hv : value ≤ MAX77804K_DEBOUNCE_TIME_38_62MS) (hrd : 0 ≤ rd.ret) :
    (rd.val % 2 ^ 32 = 0x34 →
        (max77804k_muic_set_debounce_time k rd upd info value).accesses =
          [regmap_access.regmap_read regmap_id.regmap k.MAX77804K_PMIC_REG_PMIC_ID1,
            regmap_access.regmap_update_bits regmap_id.regmap_muic k.MAX77804K_MUIC_REG_CTRL4
              ((k.MAX77804K_MUIC_CTRL4_ADCDBSET_MASK ||| k.MAX77804K_MUIC_CTRL4_ADCMODE_MASK)
                % 2 ^ 32)
              ((value <<< k.MAX77804K_MUIC_CTRL4_ADCDBSET_SHIFT) % 2 ^ 32)] ∧
        (max77804k_muic_set_debounce_time k rd upd info value).ret =
          upd (regmap_access.regmap_update_bits regmap_id.regmap_muic k.MAX77804K_MUIC_REG_CTRL4
            ((k.MAX77804K_MUIC_CTRL4_ADCDBSET_MASK ||| k.MAX77804K_MUIC_CTRL4_ADCMODE_MASK)
              % 2 ^ 32)
            ((value <<< k.MAX77804K_MUIC_CTRL4_ADCDBSET_SHIFT) % 2 ^ 32))) ∧
      (rd.val % 2 ^ 32 ≠ 0x34 →
        (max77804k_muic_set_debounce_time k rd upd info value).accesses =
          [regmap_access.regmap_read regmap_id.regmap k.MAX77804K_PMIC_REG_PMIC_ID1,
            regmap_access.regmap_update_bits regmap_id.regmap_muic k.MAX77804K_MUIC_REG_CTRL3
              (k.MAX77804K_MUIC_CTRL3_ADCDBSET_MASK % 2 ^ 32)
              ((value <<< k.MAX77804K_MUIC_CTRL3_ADCDBSET_SHIFT) % 2 ^ 32)] ∧
        (max77804k_muic_set_debounce_time k rd upd info value).ret =
          upd (regmap_access.regmap_update_bits regmap_id.regmap_muic k.MAX77804K_MUIC_REG_CTRL3
            (k.MAX77804K_MUIC_CTRL3_ADCDBSET_MASK % 2 ^ 32)
            ((value <<< k.MAX77804K_MUIC_CTRL3_ADCDBSET_SHIFT) % 2 ^ 32))) ∧
      ((k.MAX77804K_MUIC_CTRL4_ADCDBSET_MASK ||| k.MAX77804K_MUIC_CTRL4_ADCMODE_MASK)
          &&& k.MAX77804K_MUIC_CTRL4_ADCMODE_MASK = k.MAX77804K_MUIC_CTRL4_ADCMODE_MASK) ∧
      ((3 <<< k.MAX77804K_MUIC_CTRL4_ADCDBSET_SHIFT) &&& k.MAX77804K_MUIC_CTRL4_ADCMODE_MASK = 0 →
        ((value <<< k.MAX77804K_MUIC_CTRL4_ADCDBSET_SHIFT) % 2 ^ 32)
          &&& k.MAX77804K_MUIC_CTRL4_ADCMODE_MASK = 0) :=
  ⟨set_debounce_time_ctrl4 k rd upd info value hv hrd,
    set_debounce_time_ctrl3 k rd upd info value hv hrd,
    or_and_right_self _ _,
    shifted_selector_and_eq_zero value _ _ hv⟩

/-- Witness of C14: selector 25MS with revision 0x34 updates CTRL4 (0x16) with
mask 0xc3 and value 2; with revision 0x35 it updates CTRL3 (0x0e) with mask
0x30 and value 0x20. -/
theorem set_debounce_time_update_witness :
    (max77804k_muic_set_debounce_time sample_private_regs ⟨0, 0x34⟩ update_ok probe_info
        MAX77804K_DEBOUNCE_TIME_25MS).accesses =
        [regmap_access.regmap_read regmap_id.regmap 0x20,
          regmap_access.regmap_update_bits regmap_id.regmap_muic 0x16 0xc3 2] ∧
      (max77804k_muic_set_debounce_time sample_private_regs ⟨0, 0x35⟩ update_ok probe_info
        MAX77804K_DEBOUNCE_TIME_25MS).accesses =
        [regmap_access.regmap_read regmap_id.regmap 0x20,
          regmap_access.regmap_update_bits regmap_id.regmap_muic 0x0e 0x30 0x20] :=
  ⟨((set_debounce_time_update sample_private_regs ⟨0, 0x34⟩ update_ok probe_info
      MAX77804K_DEBOUNCE_TIME_25MS (by decide) (by decide)).1 (by decide)).1,
   ((set_debounce_time_update sample_private_regs ⟨0, 0x35⟩ update_ok probe_info
      MAX77804K_DEBOUNCE_TIME_25MS (by decide) (by decide)).2.1 (by decide)).1⟩

/-- C15 (configuration errors): `max77804k_muic_set_debounce_time` returns a
negative value exactly when the selector is above
MAX77804K_DEBOUNCE_TIME_38_62MS, or the revision read fails, or the selector
update it makes fails.  In the first case it returns -EINVAL and accesses no
register, in the second it returns the read's error and has only read the
revision register.  `max77804k_muic_probe` does not look at the result: changing
the outcome of the revision read and of the register updates changes neither
the value probe returns nor the driver state it leaves, log lines and register
trace apart. -/
theorem set_debounce_time_errors (k : max77804k_private_regs) (rd : reg_read)
    (upd : regmap_access → Int) (info : max77804k_muic_info) (value : Nat)
    (env : probe_env) (max77804k : max77693_dev) (tbl : List max77804k_muic_irq) :
    ((max77804k_muic_set_debounce_time k rd upd info value).ret < 0 ↔
        (value > MAX77804K_DEBOUNCE_TIME_38_62MS ∨
          (value ≤ MAX77804K_DEBOUNCE_TIME_38_62MS ∧ rd.ret < 0) ∨
          (value ≤ MAX77804K_DEBOUNCE_TIME_38_62MS ∧ 0 ≤ rd.ret ∧
            ∃ a : regmap_access,
              (max77804k_muic_set_debounce_time k rd upd info value).accesses =
                [regmap_access.regmap_read regmap_id.regmap k.MAX77804K_PMIC_REG_PMIC_ID1, a] ∧
              upd a < 0))) ∧
      (value > MAX77804K_DEBOUNCE_TIME_38_62MS →
        (max77804k_muic_set_debounce_time k rd upd info value).ret = -EINVAL ∧
        (max77804k_muic_set_debounce_time k rd upd info value).accesses = []) ∧
      (value ≤ MAX77804K_DEBOUNCE_TIME_38_62MS → rd.ret < 0 →
        (max77804k_muic_set_debounce_time k rd upd info value).ret = rd.ret ∧
        (max77804k_muic_set_debounce_time k rd upd info value).accesses =
          [regmap_access.regmap_read regmap_id.regmap k.MAX77804K_PMIC_REG_PMIC_ID1]) ∧
      ((max77804k_muic_probe k { env with pmic_id1 := rd, regmap_update_bits := upd }
            max77804k tbl).1
          = (max77804k_muic_probe k env max77804k tbl).1 ∧
        Option.map without_trace
            (max77804k_muic_probe k { env with pmic_id1 := rd, regmap_update_bits := upd }
              max77804k tbl).2
          = Option.map without_trace (max77804k_muic_probe k env max77804k tbl).2) := by
  refine ⟨?_, ?_, ?_, probe_ignores_debounce_outcome k env max77804k tbl rd upd⟩
  · by_cases hv : value > MAX77804K_DEBOUNCE_TIME_38_62MS
    · rw [set_debounce_time_invalid k rd upd info value hv]
      constructor
      · intro _
        exact Or.inl hv
      · intro _
        show -EINVAL < 0
        decide
    · have hv2 : value ≤ MAX77804K_DEBOUNCE_TIME_38_62MS := Nat.not_lt.mp hv
      by_cases hrd : rd.ret < 0
      · rw [set_debounce_time_read_failed k rd upd info value hv2 hrd]
        constructor
        · intro _
          exact Or.inr (Or.inl ⟨hv2, hrd⟩)
        · intro _
          exact hrd
      · have hrd2 : 0 ≤ rd.ret := not_lt.mp hrd
        by_cases hrev : rd.val % 2 ^ 32 = 0x34
        · obtain ⟨hacc, hret⟩ := set_debounce_time_ctrl4 k rd upd info value hv2 hrd2 hrev
          rw [hret, hacc]
          constructor
          · intro hneg
            exact Or.inr (Or.inr ⟨hv2, hrd2, _, rfl, hneg⟩)
          · rintro (h1 | h1 | ⟨_, _, a, ha, hneg⟩)
            · exact absurd h1 hv
            · exact absurd h1.2 hrd
            · simp only [List.cons.injEq, and_true, true_and] at ha
              rw [ha]
              exact hneg
        · obtain ⟨hacc, hret⟩ := set_debounce_time_ctrl3 k rd upd info value hv2 hrd2 hrev
          rw [hret, hacc]
          constructor
          · intro hneg
            exact Or.inr (Or.inr ⟨hv2, hrd2, _, rfl, hneg⟩)
          · rintro (h1 | h1 | ⟨_, _, a, ha, hneg⟩)
            · exact absurd h1 hv
            · exact absurd h1.2 hrd
            · simp only [List.cons.injEq, and_true, true_and] at ha
              rw [ha]
              exact hneg
  · intro hv
    rw [set_debounce_time_invalid k rd upd info value hv]
    exact ⟨rfl, rfl⟩
  · intro hv hrd
    rw [set_debounce_time_read_failed k rd upd info value hv hrd]
    exact ⟨rfl, rfl⟩

/-- Witness of C15: selector 7 is refused with -EINVAL before any register
access, and a bring-up in which the revision read fails with -EIO still
returns 0, as the bring-up in which it succeeds does. -/
theorem set_debounce_time_errors_witness :
    ((max77804k_muic_set_debounce_time sample_private_regs ⟨0, 0x34⟩ update_ok probe_info 7).ret
          = -EINVAL ∧
        (max77804k_muic_set_debounce_time sample_private_regs ⟨0, 0x34⟩ update_ok probe_info
          7).accesses = []) ∧
      (max77804k_muic_probe sample_private_regs
          { sample_probe_env with pmic_id1 := ⟨-5, 0⟩, regmap_update_bits := update_failed }
          fresh_max77693_dev (max77804k_muic_irq_types (fun _ => 0))).1 = 0 :=
  ⟨(set_debounce_time_errors sample_private_regs ⟨0, 0x34⟩ update_ok probe_info 7
      sample_probe_env fresh_max77693_dev (max77804k_muic_irq_types (fun _ => 0))).2.1
      (by decide),
   ((set_debounce_time_errors sample_private_regs ⟨-5, 0⟩ update_failed probe_info 7
      sample_probe_env fresh_max77693_dev
      (max77804k_muic_irq_types (fun _ => 0))).2.2.2.1).trans (by decide)⟩

/-! ## Reachable states -/

theorem irq_handler_keeps_session (tbl : List max77804k_muic_irq) (irq : Int)
    (info : max77804k_muic_info) :
    (max77804k_muic_irq_handler tbl irq info).2.cable_type = info.cable_type ∧
      (max77804k_muic_irq_handler tbl irq info).2.chgtyp = info.chgtyp ∧
      (max77804k_muic_irq_handler tbl irq info).2.adc = info.adc ∧
      (max77804k_muic_irq_handler tbl irq info).2.vbvolt = info.vbvolt := by
  unfold max77804k_muic_irq_handler
  dsimp only
  split_ifs <;> exact ⟨rfl, rfl, rfl, rfl⟩

theorem irq_work_keeps_session (h : max77804k_private) (rd : bulk_read)
    (info : max77804k_muic_info) :
    (max77804k_muic_irq_work h rd info).cable_type = info.cable_type ∧
      (max77804k_muic_irq_work h rd info).chgtyp = info.chgtyp ∧
      (max77804k_muic_irq_work h rd info).adc = info.adc ∧
      (max77804k_muic_irq_work h rd info).vbvolt = info.vbvolt := by
  by_cases hret : rd.ret = 0
  · have hw := irq_work_read_ok h rd info hret
    exact ⟨hw.2.2.2.2.2.1, hw.2.2.2.2.2.2.1, hw.2.2.2.2.2.2.2.1, hw.2.2.2.2.2.2.2.2⟩
  · rw [irq_work_read_failed h rd info hret]
    exact ⟨rfl, rfl, rfl, rfl⟩

theorem detect_cable_wq_keeps_session (h : max77804k_private) (rd : bulk_read)
    (info : max77804k_muic_info) :
    (max77804k_muic_detect_cable_wq h rd info).cable_type = info.cable_type ∧
      (max77804k_muic_detect_cable_wq h rd info).chgtyp = info.chgtyp ∧
      (max77804k_muic_detect_cable_wq h rd info).adc = info.adc ∧
      (max77804k_muic_detect_cable_wq h rd info).vbvolt = info.vbvolt := by
  by_cases hret : rd.ret = 0
  · have hw := detect_cable_wq_read_ok h rd info hret
    exact ⟨hw.2.2.2.2.2.1, hw.2.2.2.2.2.2.1, hw.2.2.2.2.2.2.2.1, hw.2.2.2.2.2.2.2.2⟩
  · rw [detect_cable_wq_read_failed h rd info hret]
    exact ⟨rfl, rfl, rfl, rfl⟩

theorem set_debounce_time_keeps_session (k : max77804k_private_regs) (rd : reg_read)
    (upd : regmap_access → Int) (info : max77804k_muic_info) (value : Nat) :
    (max77804k_muic_set_debounce_time k rd upd info value).info.cable_type = info.cable_type ∧
      (max77804k_muic_set_debounce_time k rd upd info value).info.chgtyp = info.chgtyp ∧
      (max77804k_muic_set_debounce_time k rd upd info value).info.adc = info.adc ∧
      (max77804k_muic_set_debounce_time k rd upd info value).info.vbvolt = info.vbvolt := by
  obtain ⟨d, hd⟩ := set_debounce_time_info k rd upd info value
  rw [hd]
  exact ⟨rfl, rfl, rfl, rfl⟩

theorem driver_op_keeps_session (a b : max77804k_muic_info) (hop : driver_op a b) :
    b.cable_type = a.cable_type ∧ b.chgtyp = a.chgtyp ∧ b.adc = a.adc ∧ b.vbvolt = a.vbvolt := by
  cases hop with
  | irq_handler tbl irq => exact irq_handler_keeps_session tbl irq a
  | irq_work h rd => exact irq_work_keeps_session h rd a
  | detect_cable_wq h rd => exact detect_cable_wq_keeps_session h rd a
  | is_cable_attached h attached hres => exact ⟨rfl, rfl, rfl, rfl⟩
  | set_debounce_time k rd upd _ value => exact set_debounce_time_keeps_session k rd upd a value
  | take_irq_work => exact ⟨rfl, rfl, rfl, rfl⟩
  | take_wq_detcable => exact ⟨rfl, rfl, rfl, rfl⟩
  | remove d => exact ⟨rfl, rfl, rfl, rfl⟩

theorem probe_creates_session (k : max77804k_private_regs) (env : probe_env)
    (max77804k : max77693_dev) (tbl : List max77804k_muic_irq) (d : muic_driver)
    (hprobe : (max77804k_muic_probe k env max77804k tbl).2 = some d) :
    d.info.cable_type = CABLE_TYPE_UNKNOWN_MUIC ∧ d.info.chgtyp = 0 ∧ d.info.adc = 0 ∧
      d.info.vbvolt = 0 := by
  unfold max77804k_muic_probe at hprobe
  by_cases h1 : env.devm_kzalloc = false
  · simp [h1] at hprobe
  simp only [h1, if_false, Bool.true_eq_false] at hprobe
  by_cases h2 : (max77804k_init_muic_regmap env max77804k).1 = 0
  · simp only [h2, ne_eq, not_true_eq_false, if_false] at hprobe
    cases h3 : env.devm_extcon_dev_allocate with
    | some e =>
      simp only [h3, err_muic_irq, Option.some.injEq] at hprobe
      rw [← hprobe]
      exact ⟨rfl, rfl, rfl, rfl⟩
    | none =>
      simp only [h3] at hprobe
      by_cases h4 : env.devm_extcon_dev_register = 0
      · simp only [h4, ne_eq, not_true_eq_false, if_false] at hprobe
        generalize hdb : max77804k_muic_set_debounce_time k env.pmic_id1
          env.regmap_update_bits _ _ = db at hprobe
        obtain ⟨d1, hd1⟩ := set_debounce_time_info k env.pmic_id1 env.regmap_update_bits
          probe_info MAX77804K_DEBOUNCE_TIME_25MS
        have e1 : db.info = { probe_info with dev := d1 } := by rw [← hdb]; exact hd1
        rw [e1] at hprobe
        cases hlp : (probe_request_irqs env tbl []).ret <;>
          simp only [hlp] at hprobe <;>
          split_ifs at hprobe <;>
          simp only [err_muic_irq, Option.some.injEq] at hprobe <;>
          (rw [← hprobe]; exact ⟨rfl, rfl, rfl, rfl⟩)
      · simp only [h4, ne_eq, not_false_eq_true, if_true, err_muic_irq,
          Option.some.injEq] at hprobe
        rw [← hprobe]
        exact ⟨rfl, rfl, rfl, rfl⟩
  · simp only [h2, ne_eq, not_false_eq_true, if_true, Option.some.injEq] at hprobe
    rw [← hprobe]
    exact ⟨rfl, rfl, rfl, rfl⟩

theorem reachable_session (s : max77804k_muic_info) (hs : reachable s) :
    s.cable_type = CABLE_TYPE_UNKNOWN_MUIC ∧ s.chgtyp = 0 ∧ s.adc = 0 ∧ s.vbvolt = 0 := by
  induction hs with
  | probe k env max77804k tbl d hprobe => exact probe_creates_session k env max77804k tbl d hprobe
  | step a b _ hop ih =>
    obtain ⟨h1, h2, h3, h4⟩ := driver_op_keeps_session a b hop
    rw [h1, h2, h3, h4]
    exact ih

/-! ## Totality, teardown and the reachable classifier -/

theorem is_cable_attached_eq_false_iff (h : max77804k_private) (info : max77804k_muic_info) :
    max77804k_muic_is_cable_attached h info = false ↔
      ((in_jig_range (decoded_adc h info) ∧
          info.cable_type ≠ CABLE_TYPE_NONE_MUIC ∧
          decoded_chgtyp h info = MAX77804K_MUIC_CHGTYP_NO_VOLTAGE ∧
          decoded_chgtyp h info ≠ info.chgtyp) ∨
        (decoded_adc h info = MAX77804K_MUIC_ADC_OPEN ∧ decoded_adcerr h info = 0 ∧
          ((decoded_chgtyp h info = MAX77804K_MUIC_CHGTYP_NO_VOLTAGE ∧
              decoded_dxovp h info = 0) ∨
            (usb_charger_signature (decoded_chgtyp h info) ∧
              ground_referenced_accessory info.cable_type)))) := by
  unfold max77804k_muic_is_cable_attached in_jig_range usb_charger_signature
    ground_referenced_accessory
  generalize decoded_adc h info = a
  generalize decoded_adcerr h info = e
  generalize decoded_chgtyp h info = c
  generalize decoded_dxovp h info = x
  generalize info.chgtyp = r
  simp only [MAX77804K_MUIC_ADC_GND, MAX77804K_MUIC_ADC_CEA936ATYPE1_CHG,
    MAX77804K_MUIC_ADC_JIG_UART_ON, MAX77804K_MUIC_ADC_OPEN, MAX77804K_MUIC_CHGTYP_NO_VOLTAGE,
    MAX77804K_MUIC_CHGTYP_USB, MAX77804K_MUIC_CHGTYP_DOWNSTREAM_PORT,
    MAX77804K_MUIC_CHGTYP_DEDICATED_CHGR, MAX77804K_MUIC_CHGTYP_500MA, MAX77804K_MUIC_CHGTYP_1A]
  by_cases hg : a = 0
  · subst hg
    simp
  by_cases hr : 23 ≤ a ∧ a ≤ 29
  · have ho : a ≠ 31 := by omega
    simp only [hg, hr, ho, if_false, if_true, and_self, true_and, false_and, or_false]
    by_cases hc : c = 0
    · subst hc
      by_cases hn : info.cable_type = CABLE_TYPE_NONE_MUIC
      · simp [hn]
      · by_cases hrr : r = 0
        · subst hrr
          simp [hn]
        · have hrr2 : ¬ (0 = r) := fun e => hrr e.symm
          simp [hn, hrr, hrr2]
    · simp [hc]
  by_cases ho : a = 31
  · subst ho
    have hr2 : ¬ (23 ≤ 31 ∧ 31 ≤ 29) := by omega
    simp only [hg, hr2, if_false, if_true, false_and, false_or, true_and]
    by_cases he : e = 0
    · subst he
      simp only [if_true, true_and]
      by_cases hc : c = 0
      · subst hc
        by_cases hx : x = 0
        · subst hx
          simp
        · simp [hx]
      · simp only [hc, if_false, false_and, false_or]
        by_cases hu : c = 1 ∨ c = 2 ∨ c = 3 ∨ c = 4 ∨ c = 5
        · simp only [hu, if_true, true_and]
          cases info.cable_type <;> simp
        · simp [hu]
    · simp [he]
  · have hr2 : ¬ (23 ≤ a ∧ a ≤ 29) := hr
    simp [hg, hr2, ho]

theorem is_cable_attached_status12 (h : max77804k_private) (a b : max77804k_muic_info)
    (hs1 : a.status.MAX77804K_MUIC_STATUS1 = b.status.MAX77804K_MUIC_STATUS1)
    (hs2 : a.status.MAX77804K_MUIC_STATUS2 = b.status.MAX77804K_MUIC_STATUS2)
    (hcable : a.cable_type = b.cable_type) (hchg : a.chgtyp = b.chgtyp) :
    max77804k_muic_is_cable_attached h a = max77804k_muic_is_cable_attached h b := by
  unfold max77804k_muic_is_cable_attached decoded_adc decoded_adcerr decoded_chgtyp
    decoded_dxovp
  rw [hs1, hs2, hcable, hchg]

/-- C16 (totality): for every value of the three status bytes, of the stored
cable type and of the recorded charger type, `max77804k_muic_is_cable_attached`
returns a boolean: one of the four arms of its switch applies (GROUND, the
range 0x17..0x1d, OPEN, default), the result is true or false, and it is false
exactly under the detach evidence of the range arm or of the OPEN arm; there is
no third outcome. -/
theorem is_cable_attached_total (h : max77804k_private) (info : max77804k_muic_info) :
    (max77804k_muic_is_cable_attached h info = true ∨
        max77804k_muic_is_cable_attached h info = false) ∧
      (decoded_adc h info = MAX77804K_MUIC_ADC_GND ∨ in_jig_range (decoded_adc h info) ∨
        decoded_adc h info = MAX77804K_MUIC_ADC_OPEN ∨
        (decoded_adc h info ≠ MAX77804K_MUIC_ADC_GND ∧ ¬ in_jig_range (decoded_adc h info) ∧
          decoded_adc h info ≠ MAX77804K_MUIC_ADC_OPEN)) ∧
      (max77804k_muic_is_cable_attached h info = false ↔
        ((in_jig_range (decoded_adc h info) ∧
            info.cable_type ≠ CABLE_TYPE_NONE_MUIC ∧
            decoded_chgtyp h info = MAX77804K_MUIC_CHGTYP_NO_VOLTAGE ∧
            decoded_chgtyp h info ≠ info.chgtyp) ∨
          (decoded_adc h info = MAX77804K_MUIC_ADC_OPEN ∧ decoded_adcerr h info = 0 ∧
            ((decoded_chgtyp h info = MAX77804K_MUIC_CHGTYP_NO_VOLTAGE ∧
                decoded_dxovp h info = 0) ∨
              (usb_charger_signature (decoded_chgtyp h info) ∧
                ground_referenced_accessory info.cable_type))))) := by
  refine ⟨?_, ?_, is_cable_attached_eq_false_iff h info⟩
  · cases max77804k_muic_is_cable_attached h info
    · exact Or.inr rfl
    · exact Or.inl rfl
  · by_cases hg : decoded_adc h info = MAX77804K_MUIC_ADC_GND
    · exact Or.inl hg
    by_cases hr : in_jig_range (decoded_adc h info)
    · exact Or.inr (Or.inl hr)
    by_cases ho : decoded_adc h info = MAX77804K_MUIC_ADC_OPEN
    · exact Or.inr (Or.inr (Or.inl ho))
    · exact Or.inr (Or.inr (Or.inr ⟨hg, hr, ho⟩))

/-- Witness of C16: with status bytes (0xff, 0xff, 0xff), stored cable type
AUDIODOCK and recorded charger type 200 the classifier returns true or false. -/
theorem is_cable_attached_total_witness :
    max77804k_muic_is_cable_attached sample_private
        { snapshot_info 0xff 0xff CABLE_TYPE_AUDIODOCK_MUIC with
            status := ⟨0xff, 0xff, 0xff⟩, chgtyp := 200 } = true ∨
      max77804k_muic_is_cable_attached sample_private
        { snapshot_info 0xff 0xff CABLE_TYPE_AUDIODOCK_MUIC with
            status := ⟨0xff, 0xff, 0xff⟩, chgtyp := 200 } = false :=
  (is_cable_attached_total sample_private
    { snapshot_info 0xff 0xff CABLE_TYPE_AUDIODOCK_MUIC with
        status := ⟨0xff, 0xff, 0xff⟩, chgtyp := 200 }).1

/-- C17 (teardown), evaluated on the code: `max77804k_muic_remove` cancels the
work item `irq_work` and releases the IRQ chip and the MUIC I2C device, but in
no driver state does it touch the delayed work item `wq_detcable`; after the
bring-up `sample_probe_env`, which leaves `wq_detcable` pending, the item is
still pending when remove has returned 0 with the resources released. -/
theorem remove_leaves_wq_detcable (d : muic_driver) :
    ((max77804k_muic_remove d).2.info.wq_detcable = d.info.wq_detcable ∧
        (max77804k_muic_remove d).2.info.irq_work = false ∧
        (max77804k_muic_remove d).2.max77804k.irq_data_muic = false ∧
        (max77804k_muic_remove d).2.max77804k.i2c_muic = false) ∧
      (max77804k_muic_probe sample_private_regs sample_probe_env fresh_max77693_dev
          (max77804k_muic_irq_types (fun _ => 0)) = (0, some sample_probed) ∧
        sample_probed.info.wq_detcable = true ∧
        (max77804k_muic_remove sample_probed).1 = 0 ∧
        (max77804k_muic_remove sample_probed).2.info.wq_detcable = true ∧
        (max77804k_muic_remove sample_probed).2.max77804k.irq_data_muic = false ∧
        (max77804k_muic_remove sample_probed).2.max77804k.i2c_muic = false) :=
  ⟨⟨rfl, rfl, rfl, rfl⟩, by decide⟩

/-- C19 (reachable-state invariant): every driver operation leaves
`cable_type`, `chgtyp`, `adc` and `vbvolt` unchanged; the record
`max77804k_muic_probe` leaves has `cable_type = CABLE_TYPE_UNKNOWN_MUIC` and the
other three zero; hence in every reachable state the stored cable type is
UNKNOWN and the recorded charger type is 0 (NO_VOLTAGE). -/
theorem reachable_state_invariant :
    (∀ a b : max77804k_muic_info, driver_op a b →
        b.cable_type = a.cable_type ∧ b.chgtyp = a.chgtyp ∧ b.adc = a.adc ∧
          b.vbvolt = a.vbvolt) ∧
      (∀ (k : max77804k_private_regs) (env : probe_env) (max77804k : max77693_dev)
          (tbl : List max77804k_muic_irq) (d : muic_driver),
        (max77804k_muic_probe k env max77804k tbl).2 = some d →
        d.info.cable_type = CABLE_TYPE_UNKNOWN_MUIC ∧ d.info.chgtyp = 0 ∧ d.info.adc = 0 ∧
          d.info.vbvolt = 0) ∧
      (∀ s : max77804k_muic_info, reachable s →
        s.cable_type = CABLE_TYPE_UNKNOWN_MUIC ∧
          s.chgtyp = MAX77804K_MUIC_CHGTYP_NO_VOLTAGE ∧ s.adc = 0 ∧ s.vbvolt = 0) :=
  ⟨driver_op_keeps_session, probe_creates_session, reachable_session⟩

/-- Witness of C19: after the bring-up `sample_probe_env`, an ADC interrupt and
the detection pass it triggers, the stored cable type is UNKNOWN and the
recorded charger type is 0. -/
theorem reachable_state_invariant_witness :
    (max77804k_muic_irq_work sample_private sample_read_open
        (max77804k_muic_irq_handler sample_irq_types 100 sample_probed.info).2).cable_type
        = CABLE_TYPE_UNKNOWN_MUIC ∧
      (max77804k_muic_irq_work sample_private sample_read_open
        (max77804k_muic_irq_handler sample_irq_types 100 sample_probed.info).2).chgtyp
        = MAX77804K_MUIC_CHGTYP_NO_VOLTAGE :=
  have hr := reachable_state_invariant.2.2 _
    (reachable.step _ _
      (reachable.step _ _
        (reachable.probe sample_private_regs sample_probe_env fresh_max77693_dev
          (max77804k_muic_irq_types (fun _ => 0)) sample_probed (by decide))
        (driver_op.irq_handler sample_irq_types 100 sample_probed.info))
      (driver_op.irq_work sample_private sample_read_open _))
  ⟨hr.1, hr.2.1⟩

theorem is_cable_attached_reachable_decoded (h : max77804k_private) (info : max77804k_muic_info)
    (hcable : info.cable_type = CABLE_TYPE_UNKNOWN_MUIC) (hchg : info.chgtyp = 0) :
    (max77804k_muic_is_cable_attached h info = false ↔
        (decoded_adc h info = MAX77804K_MUIC_ADC_OPEN ∧ decoded_adcerr h info = 0 ∧
          decoded_chgtyp h info = MAX77804K_MUIC_CHGTYP_NO_VOLTAGE ∧
          decoded_dxovp h info = 0)) ∧
      (¬ (decoded_adc h info = MAX77804K_MUIC_ADC_OPEN ∧ decoded_adcerr h info = 0 ∧
          decoded_chgtyp h info = MAX77804K_MUIC_CHGTYP_NO_VOLTAGE ∧
          decoded_dxovp h info = 0) →
        max77804k_muic_is_cable_attached h info = true) ∧
      (in_jig_range (decoded_adc h info) → max77804k_muic_is_cable_attached h info = true) ∧
      (decoded_adc h info = MAX77804K_MUIC_ADC_OPEN → decoded_adcerr h info = 0 →
        usb_charger_signature (decoded_chgtyp h info) →
        max77804k_muic_is_cable_attached h info = true) ∧
      (∀ rd : bulk_read, rd.ret = 0 →
        (max77804k_muic_irq_work h rd info).edev =
            info.edev ++
              [(EXTCON_USB,
                  max77804k_muic_is_cable_attached h
                    (snapshot_info (rd.val.MAX77804K_MUIC_STATUS1 % 256)
                      (rd.val.MAX77804K_MUIC_STATUS2 % 256) CABLE_TYPE_UNKNOWN_MUIC)),
                (EXTCON_USB_HOST, false)] ∧
          (max77804k_muic_detect_cable_wq h rd info).edev =
            info.edev ++
              [(EXTCON_USB,
                  max77804k_muic_is_cable_attached h
                    (snapshot_info (rd.val.MAX77804K_MUIC_STATUS1 % 256)
                      (rd.val.MAX77804K_MUIC_STATUS2 % 256) CABLE_TYPE_UNKNOWN_MUIC)),
                (EXTCON_USB_HOST, false)]) := by
  have hiff := is_cable_attached_eq_false_iff h info
  have hng : ¬ ground_referenced_accessory info.cable_type := by
    rw [hcable]
    decide
  have hfalse : max77804k_muic_is_cable_attached h info = false ↔
      (decoded_adc h info = MAX77804K_MUIC_ADC_OPEN ∧ decoded_adcerr h info = 0 ∧
        decoded_chgtyp h info = MAX77804K_MUIC_CHGTYP_NO_VOLTAGE ∧
        decoded_dxovp h info = 0) := by
    rw [hiff]
    constructor
    · rintro (⟨_, _, hc, hne⟩ | ⟨ho, he, ⟨hc, hx⟩ | ⟨_, hgr⟩⟩)
      · exact absurd (hc.trans hchg.symm) hne
      · exact ⟨ho, he, hc, hx⟩
      · exact absurd hgr hng
    · rintro ⟨ho, he, hc, hx⟩
      exact Or.inr ⟨ho, he, Or.inl ⟨hc, hx⟩⟩
  have htrue : ∀ hne : ¬ (decoded_adc h info = MAX77804K_MUIC_ADC_OPEN ∧
      decoded_adcerr h info = 0 ∧
      decoded_chgtyp h info = MAX77804K_MUIC_CHGTYP_NO_VOLTAGE ∧ decoded_dxovp h info = 0),
      max77804k_muic_is_cable_attached h info = true := by
    intro hne
    cases hres : max77804k_muic_is_cable_attached h info
    · exact absurd (hfalse.mp hres) hne
    · rfl
  refine ⟨hfalse, htrue, ?_, ?_, ?_⟩
  · intro hr
    apply htrue
    rintro ⟨ho, _, _, _⟩
    unfold in_jig_range at hr
    rw [ho] at hr
    exact absurd hr (by decide)
  · intro _ _ hu
    apply htrue
    rintro ⟨_, _, hc, _⟩
    rw [hc] at hu
    exact absurd hu (by decide)
  · intro rd hret
    have hb : max77804k_muic_is_cable_attached h { info with status := store_status rd }
        = max77804k_muic_is_cable_attached h
            (snapshot_info (rd.val.MAX77804K_MUIC_STATUS1 % 256)
              (rd.val.MAX77804K_MUIC_STATUS2 % 256) CABLE_TYPE_UNKNOWN_MUIC) :=
      is_cable_attached_status12 h _ _ rfl rfl hcable hchg
    rw [← hb]
    exact ⟨(irq_work_read_ok h rd info hret).2.1, (detect_cable_wq_read_ok h rd info hret).2.1⟩

/-- C20 (classifier in the reachable states): let `adc` and `adcerr` be STATUS1
masked and shifted by the ADC and ADC-error fields, and `chgtyp` and `dxovp` be
STATUS2 masked and shifted by the charger-type and overvoltage fields.  With
stored cable type UNKNOWN and recorded charger type 0, the classifier returns
false if and only if `adc` is OPEN, the ADC-error bit is clear, `chgtyp` is
NO_VOLTAGE and the overvoltage bit is clear, and true otherwise; in particular
the range 0x17..0x1d and the previous-accessory branch yield true; and the
EXTCON_USB value a successful detection pass publishes is the classifier's
result on the STATUS1 and STATUS2 bytes just read alone. -/
theorem is_cable_attached_reachable (h : max77804k_private) (info : max77804k_muic_info)
    (adc adcerr chgtyp dxovp : Nat)
    (hadc_field : adc =
      (((info.status.MAX77804K_MUIC_STATUS1 &&& h.MAX77804K_MUIC_STATUS1_ADC_MASK) % 256)
        >>> h.MAX77804K_MUIC_STATUS1_ADC_SHIFT) % 256)
    (herr_field : adcerr =
      (((info.status.MAX77804K_MUIC_STATUS1 &&& h.MAX77804K_MUIC_STATUS1_ADCERR_MASK) % 256)
        >>> h.MAX77804K_MUIC_STATUS1_ADCERR_SHIFT) % 256)
    (hchg_field : chgtyp =
      (((info.status.MAX77804K_MUIC_STATUS2 &&& h.MAX77804K_MUIC_STATUS2_CHGTYP_MASK) % 256)
        >>> h.MAX77804K_MUIC_STATUS2_CHGTYP_SHIFT) % 256)
    (hovp_field : dxovp =
      (((info.status.MAX77804K_MUIC_STATUS2 &&& h.MAX77804K_MUIC_STATUS2_DXOVP_MASK) % 256)
        >>> h.MAX77804K_MUIC_STATUS2_DXOVP_SHIFT) % 256)
    (hcable : info.cable_type = CABLE_TYPE_UNKNOWN_MUIC) (hchg : info.chgtyp = 0) :
    (max77804k_muic_is_cable_attached h info = false ↔
        (adc = MAX77804K_MUIC_ADC_OPEN ∧ adcerr = 0 ∧
          chgtyp = MAX77804K_MUIC_CHGTYP_NO_VOLTAGE ∧ dxovp = 0)) ∧
      (¬ (adc = MAX77804K_MUIC_ADC_OPEN ∧ adcerr = 0 ∧
          chgtyp = MAX77804K_MUIC_CHGTYP_NO_VOLTAGE ∧ dxovp = 0) →
        max77804k_muic_is_cable_attached h info = true) ∧
      (in_jig_range adc → max77804k_muic_is_cable_attached h info = true) ∧
      (adc = MAX77804K_MUIC_ADC_OPEN → adcerr = 0 → usb_charger_signature chgtyp →
        max77804k_muic_is_cable_attached h info = true) ∧
      (∀ rd : bulk_read, rd.ret = 0 →
        (max77804k_muic_irq_work h rd info).edev =
            info.edev ++
              [(EXTCON_USB,
                  max77804k_muic_is_cable_attached h
                    (snapshot_info (rd.val.MAX77804K_MUIC_STATUS1 % 256)
                      (rd.val.MAX77804K_MUIC_STATUS2 % 256) CABLE_TYPE_UNKNOWN_MUIC)),
                (EXTCON_USB_HOST, false)] ∧
          (max77804k_muic_detect_cable_wq h rd info).edev =
            info.edev ++
              [(EXTCON_USB,
                  max77804k_muic_is_cable_attached h
                    (snapshot_info (rd.val.MAX77804K_MUIC_STATUS1 % 256)
                      (rd.val.MAX77804K_MUIC_STATUS2 % 256) CABLE_TYPE_UNKNOWN_MUIC)),
                (EXTCON_USB_HOST, false)]) := by
  subst hadc_field herr_field hchg_field hovp_field
  exact is_cable_attached_reachable_decoded h info hcable hchg

/-- Witness of C20: in the state the bring-up `sample_probe_env` leaves (cable
type UNKNOWN, recorded charger type 0), the snapshot (OPEN, NO_VOLTAGE, error
0, ovp 0) is classified as detached; the same snapshot with the ADC-error bit
set (STATUS1 = 0x5f) or with the overvoltage bit set (STATUS2 = 0x20), the
snapshot (JIG_USB_OFF 0x18, NO_VOLTAGE) of the range 0x17..0x1d, and the
snapshot (OPEN, USB) of the previous-accessory branch are classified as
attached; and the interrupt-triggered pass publishes USB = true after reading
(0x5f, 0x00, 0x00). -/
theorem is_cable_attached_reachable_witness :
    max77804k_muic_is_cable_attached sample_private
        { sample_probed.info with status := ⟨0x1f, 0x00, 0x00⟩ } = false ∧
      max77804k_muic_is_cable_attached sample_private
        { sample_probed.info with status := ⟨0x5f, 0x00, 0x00⟩ } = true ∧
      max77804k_muic_is_cable_attached sample_private
        { sample_probed.info with status := ⟨0x1f, 0x20, 0x00⟩ } = true ∧
      max77804k_muic_is_cable_attached sample_private
        { sample_probed.info with status := ⟨0x18, 0x00, 0x00⟩ } = true ∧
      max77804k_muic_is_cable_attached sample_private
        { sample_probed.info with status := ⟨0x1f, 0x01, 0x00⟩ } = true ∧
      (max77804k_muic_irq_work sample_private ⟨0, ⟨0x5f, 0x00, 0x00⟩⟩ sample_probed.info).edev =
        sample_probed.info.edev ++ [(EXTCON_USB, true), (EXTCON_USB_HOST, false)] :=
  ⟨(is_cable_attached_reachable sample_private
      { sample_probed.info with status := ⟨0x1f, 0x00, 0x00⟩ } 0x1f 0 0 0
      rfl rfl rfl rfl (by decide) (by decide)).1.2 (by decide),
   (is_cable_attached_reachable sample_private
      { sample_probed.info with status := ⟨0x5f, 0x00, 0x00⟩ } 0x1f 1 0 0
      rfl rfl rfl rfl (by decide) (by decide)).2.1 (by decide),
   (is_cable_attached_reachable sample_private
      { sample_probed.info with status := ⟨0x1f, 0x20, 0x00⟩ } 0x1f 0 0 1
      rfl rfl rfl rfl (by decide) (by decide)).2.1 (by decide),
   (is_cable_attached_reachable sample_private
      { sample_probed.info with status := ⟨0x18, 0x00, 0x00⟩ } 0x18 0 0 0
      rfl rfl rfl rfl (by decide) (by decide)).2.2.1 (by decide),
   (is_cable_attached_reachable sample_private
      { sample_probed.info with status := ⟨0x1f, 0x01, 0x00⟩ } 0x1f 0 1 0
      rfl rfl rfl rfl (by decide) (by decide)).2.2.2.1
      (by decide) (by decide) (by decide),
   ((is_cable_attached_reachable sample_private sample_probed.info 0 0 0 0
      rfl rfl rfl rfl (by decide) (by decide)).2.2.2.2
      ⟨0, ⟨0x5f, 0x00, 0x00⟩⟩ (by decide)).1.trans (by decide)⟩

end Max77804k
